import Mathlib

/-!
# ICMP analyzer (`src/ICMP.cc`): a shallow embedding and its verified properties

The embedding follows `ICMP.cc` function by function.  C `int` values are `Int`,
unsigned values are `Nat` (reduced modulo `2^32` or `2^16` where the source converts),
bytes are `Fin 256`.  A pointer into packet memory is a reader `Nat → m u_char`
(offset ↦ byte) in a monad `m`: with `m = Id` the reader is the raw memory behind the
pointer, with `m = Option` it is a bounds-checked captured buffer, and `none` marks a
read outside the captured bytes.
-/

namespace ICMP

/-! ## Constants of `<netinet/ip_icmp.h>`, `<netinet/icmp6.h>` and `<netinet/in.h>` -/

abbrev ICMP_ECHOREPLY : Int := 0
abbrev ICMP_UNREACH : Int := 3
abbrev ICMP_ECHO : Int := 8
abbrev ICMP_ROUTERADVERT : Int := 9
abbrev ICMP_ROUTERSOLICIT : Int := 10
abbrev ICMP_TIMXCEED : Int := 11
abbrev ICMP_TSTAMP : Int := 13
abbrev ICMP_TSTAMPREPLY : Int := 14
abbrev ICMP_IREQ : Int := 15
abbrev ICMP_IREQREPLY : Int := 16
abbrev ICMP_MASKREQ : Int := 17
abbrev ICMP_MASKREPLY : Int := 18

abbrev ICMP6_DST_UNREACH : Int := 1
abbrev ICMP6_PACKET_TOO_BIG : Int := 2
abbrev ICMP6_TIME_EXCEEDED : Int := 3
abbrev ICMP6_PARAM_PROB : Int := 4
abbrev ICMP6_ECHO_REQUEST : Int := 128
abbrev ICMP6_ECHO_REPLY : Int := 129
abbrev MLD_LISTENER_QUERY : Int := 130
abbrev MLD_LISTENER_REPORT : Int := 131
abbrev ND_ROUTER_SOLICIT : Int := 133
abbrev ND_ROUTER_ADVERT : Int := 134
abbrev ND_NEIGHBOR_SOLICIT : Int := 135
abbrev ND_NEIGHBOR_ADVERT : Int := 136
abbrev ND_REDIRECT : Int := 137
abbrev ICMP6_ROUTER_RENUMBERING : Int := 138

abbrev IPPROTO_ICMP : Nat := 1
abbrev IPPROTO_ICMPV6 : Nat := 58

/-! ## Counterpart tables (`ICMP4_counterpart`, `ICMP6_counterpart`) -/

/-- The function `int ICMP4_counterpart(int icmp_type, int icmp_code, bool& is_one_way)`:
the returned pair is (return value, `is_one_way`). -/
def ICMP4_counterpart (icmp_type icmp_code : Int) : Int × Bool :=
  if icmp_type = ICMP_ECHO then (ICMP_ECHOREPLY, false)
  else if icmp_type = ICMP_ECHOREPLY then (ICMP_ECHO, false)
  else if icmp_type = ICMP_TSTAMP then (ICMP_TSTAMPREPLY, false)
  else if icmp_type = ICMP_TSTAMPREPLY then (ICMP_TSTAMP, false)
  else if icmp_type = ICMP_IREQ then (ICMP_IREQREPLY, false)
  else if icmp_type = ICMP_IREQREPLY then (ICMP_IREQ, false)
  else if icmp_type = ICMP_ROUTERSOLICIT then (ICMP_ROUTERADVERT, false)
  else if icmp_type = ICMP_MASKREQ then (ICMP_MASKREPLY, false)
  else if icmp_type = ICMP_MASKREPLY then (ICMP_MASKREQ, false)
  else (icmp_code, true)

/-- The function `int ICMP6_counterpart(int icmp_type, int icmp_code, bool& is_one_way)`:
the returned pair is (return value, `is_one_way`). -/
def ICMP6_counterpart (icmp_type icmp_code : Int) : Int × Bool :=
  if icmp_type = ICMP6_ECHO_REQUEST then (ICMP6_ECHO_REPLY, false)
  else if icmp_type = ICMP6_ECHO_REPLY then (ICMP6_ECHO_REQUEST, false)
  else if icmp_type = ND_ROUTER_SOLICIT then (ND_ROUTER_ADVERT, false)
  else if icmp_type = ND_ROUTER_ADVERT then (ND_ROUTER_SOLICIT, false)
  else if icmp_type = ND_NEIGHBOR_SOLICIT then (ND_NEIGHBOR_ADVERT, false)
  else if icmp_type = ND_NEIGHBOR_ADVERT then (ND_NEIGHBOR_SOLICIT, false)
  else if icmp_type = MLD_LISTENER_QUERY then (MLD_LISTENER_REPORT, false)
  else if icmp_type = MLD_LISTENER_REPORT then (MLD_LISTENER_QUERY, false)
  else if icmp_type = 139 then (140, false)
  else if icmp_type = 140 then (139, false)
  else if icmp_type = 144 then (145, false)
  else if icmp_type = 145 then (144, false)
  else (icmp_code, true)

/-- The `case` labels of the `switch` in `ICMP4_counterpart`, in source order. -/
def ICMP4_cases : List Int :=
  [ICMP_ECHO, ICMP_ECHOREPLY, ICMP_TSTAMP, ICMP_TSTAMPREPLY, ICMP_IREQ, ICMP_IREQREPLY,
   ICMP_ROUTERSOLICIT, ICMP_MASKREQ, ICMP_MASKREPLY]

/-- The `case` labels of the `switch` in `ICMP6_counterpart`, in source order. -/
def ICMP6_cases : List Int :=
  [ICMP6_ECHO_REQUEST, ICMP6_ECHO_REPLY, ND_ROUTER_SOLICIT, ND_ROUTER_ADVERT,
   ND_NEIGHBOR_SOLICIT, ND_NEIGHBOR_ADVERT, MLD_LISTENER_QUERY, MLD_LISTENER_REPORT,
   139, 140, 144, 145]


/-! ## Packet memory and byte order -/

/-- A byte (`u_char`). -/
abbrev u_char := Fin 256

/-- A `const u_char*`: reading the byte at an offset from the pointer, in the monad `m`. -/
abbrev Ptr (m : Type → Type) := Nat → m u_char

/-- Pointer arithmetic `p + k`. -/
def Ptr.add {m : Type → Type} (p : Ptr m) (k : Nat) : Ptr m := fun i => p (k + i)

/-- A captured buffer as a bounds-checked pointer: offsets at or beyond the number of
captured bytes read as `none`. -/
def Ptr.ofBuffer (buf : List u_char) : Ptr Option := fun i => buf[i]?

/-- Reads `n` consecutive bytes starting at offset `off`. -/
def readBytes {m : Type → Type} [Monad m] (p : Ptr m) (off : Nat) : Nat → m (List u_char)
  | 0 => pure []
  | n + 1 => do
    let b ← p off
    let bs ← readBytes p (off + 1) n
    pure (b :: bs)

/-- The number written by a list of bytes, most significant byte first. -/
def beValue (bs : List u_char) : Nat := bs.foldl (fun a b => a * 256 + b.val) 0

/-- Reads the `n`-byte big-endian (network order) number at offset `off`. -/
def readBE {m : Type → Type} [Monad m] (p : Ptr m) (off n : Nat) : m Nat := do
  let bs ← readBytes p off n
  pure (beValue bs)

/-- Loads a 16-bit field at offset `off` in host byte order (`little_endian` host or not). -/
def load16 {m : Type → Type} [Monad m] (little_endian : Bool) (p : Ptr m) (off : Nat) :
    m Int := do
  let b0 ← p off
  let b1 ← p (off + 1)
  pure (if little_endian then (b0.val + 256 * b1.val : Nat) else (256 * b0.val + b1.val : Nat))

/-- The function `ntohs`: the argument is converted to `uint16_t`; a little-endian host swaps the two
bytes, a big-endian host returns the value as it is. -/
def ntohs (little_endian : Bool) (x : Int) : Nat :=
  let v := (x % 65536).toNat
  if little_endian then (v % 256) * 256 + v / 256 else v

/-- Conversion of an `int` to `uint32`. -/
def uint32 (x : Int) : Nat := (x % 4294967296).toNat

/-! ## Script-layer values -/

/-- The enumeration `TransportProto` (declared outside `ICMP.cc`), in declaration order. -/
inductive TransportProto
  | TRANSPORT_UNKNOWN
  | TRANSPORT_TCP
  | TRANSPORT_UDP
  | TRANSPORT_ICMP
  deriving DecidableEq, Repr

/-- The integer value of a `TransportProto` enumerator. -/
def TransportProto.toNat : TransportProto → Nat
  | .TRANSPORT_UNKNOWN => 0
  | .TRANSPORT_TCP => 1
  | .TRANSPORT_UDP => 2
  | .TRANSPORT_ICMP => 3

/-- An `IPAddr`, as the number its bytes write in network order; 0 is the zero address. -/
abbrev IPAddr := Nat

/-- The value `PortVal(port, proto)`. -/
structure PortVal where
  port : Nat
  proto : TransportProto
  deriving DecidableEq, Repr

/-- The `conn_id` record built inside a context record. -/
structure conn_id where
  orig_h : IPAddr
  orig_p : PortVal
  resp_h : IPAddr
  resp_p : PortVal
  deriving DecidableEq, Repr

/-- The `icmp_context` record (ContextRecord), fields in `Assign` order 0..7.  `TYPE_BOOL`
fields hold the C integer given to `Val` (true iff non-zero). -/
structure icmp_context where
  id : conn_id
  len : Nat
  proto : Nat
  bad_hdr_len : Int
  bad_checksum : Int
  frag_offset : Nat
  MF : Int
  DF : Int
  deriving DecidableEq, Repr

/-- The `icmp_conn` record (IcmpSummary), fields in `Assign` order 0..5. -/
structure icmp_conn where
  orig_h : IPAddr
  resp_h : IPAddr
  itype : Nat
  icode : Nat
  len : Int
  v6 : Int
  deriving DecidableEq, Repr

/-- The values appended to the `val_list` of an event. -/
inductive Val
  | conn_val
  | icmp_conn_val (v : icmp_conn)
  | count (n : Int)
  | string (payload : List u_char)
  | context (c : icmp_context)
  deriving DecidableEq, Repr

/-- The ICMP events of the script layer. -/
inductive Event
  | icmp_sent
  | icmp_echo_request
  | icmp_echo_reply
  | icmp_unreachable
  | icmp_error_message
  | icmp_router_advertisement
  deriving DecidableEq, Repr

/-- An `EventHandlerPtr`: `none` is the null handler of an event nobody subscribed to. -/
abbrev EventHandlerPtr := Option Event

/-- What a call of the analyzer does to its collaborators, in call order. -/
inductive Action
  | TransportLayerAnalyzer_DeliverPacket
  | PacketContents (n : Int)
  | assert_failed
  | InternalError (msg : String)
  | Weird (name : String)
  | SetLastTime
  | InitEndpointMatcher
  | ConnectionEvent (f : Event) (vl : List Val)
  | ForwardPacket (len : Int) (is_orig : Bool) (seq : Int) (caplen : Int)
  | Match (len : Int) (is_orig : Bool)
  deriving DecidableEq, Repr

/-- The enumeration `ICMP_EndpointState` (declared in `ICMP.h`). -/
inductive ICMP_EndpointState
  | ICMP_INACTIVE
  | ICMP_ACTIVE
  deriving DecidableEq, Repr

/-! ## The IP header view and the globals -/

/-- Modelled from the spec: class `IP_Hdr` of `IP.h`, which is not in `src/`: the parsed
view of an IP header that the analyzer queries ("the IP-header parsing abstraction").
`ip4` tells whether `IP4_Hdr()` is non-null, `hdr` is the header pointer returned by
`IP4_Hdr()` or `IP6_Hdr()`, the other fields are the accessors of the same name. -/
structure IP_Hdr (m : Type → Type) where
  ip4 : Bool
  hdr : Ptr m
  HdrLen : m Nat
  TotalLen : m Nat
  NextProto : m Nat
  SrcAddr : m IPAddr
  DstAddr : m IPAddr
  FragField : m Nat
  DF : m Int

/-- Modelled from the spec: `IP_Hdr(const struct ip*)` of `IP.h`, which is not in `src/`:
the view of an embedded IPv4 datagram, each accessor reading its field of the IPv4 header
layout (header length = low nibble of byte 0 times 4, total length at bytes 2-3, fragment
field at bytes 6-7 with the DF bit 0x4000, protocol at byte 9, source address at
bytes 12-15, destination address at bytes 16-19). -/
def IP_Hdr.ofIp4 {m : Type → Type} [Monad m] (data : Ptr m) : IP_Hdr m where
  ip4 := true
  hdr := data
  HdrLen := do
    let b ← data 0
    pure ((b.val % 16) * 4)
  TotalLen := readBE data 2 2
  NextProto := do
    let b ← data 9
    pure b.val
  SrcAddr := readBE data 12 4
  DstAddr := readBE data 16 4
  FragField := readBE data 6 2
  DF := do
    let f ← readBE data 6 2
    pure (if f &&& 0x4000 ≠ 0 then 1 else 0)

/-- Modelled from the spec: `IP_Hdr(const struct ip6_hdr*)` of `IP.h`, which is not in
`src/`: the view of an embedded IPv6 datagram ("fixed 40-byte header length is assumed"):
header length 40, payload length at bytes 4-5 (total length adds the 40 header bytes, as
a 16-bit value), next header at byte 6, source address at bytes 8-23, destination address
at bytes 24-39, no fragment field. -/
def IP_Hdr.ofIp6 {m : Type → Type} [Monad m] (data : Ptr m) : IP_Hdr m where
  ip4 := false
  hdr := data
  HdrLen := pure 40
  TotalLen := do
    let l ← readBE data 4 2
    pure ((l + 40) % 65536)
  NextProto := do
    let b ← data 6
    pure b.val
  SrcAddr := readBE data 8 16
  DstAddr := readBE data 24 16
  FragField := pure 0
  DF := pure 0

/-- The globals and collaborators `ICMP.cc` consults but does not define: configuration
flags, which events have a handler, the host byte order, the matcher state query and the
two ICMP checksum routines. -/
structure Globals (m : Type → Type) where
  packet_contents : Bool
  ignore_checksums : Bool
  rule_matcher : Bool
  MatcherInitialized : Bool → Bool
  subscribed : Event → Bool
  little_endian : Bool
  icmp_checksum : Ptr m → Int → m Int
  icmp6_checksum : Ptr m → IP_Hdr m → Int → m Int

/-- The global handler pointer of an event: null when the event is not subscribed. -/
def Globals.handler {m : Type → Type} (g : Globals m) (e : Event) : EventHandlerPtr :=
  if g.subscribed e then some e else none

/-- Modelled from the spec: `ones_complement_checksum(p, b, sum)`, which is not in `src/`
(the extractor verifies the checksum of the embedded header with it): the ones-complement sum of `sum` and the
`b / 2` 16-bit words at `p`, with the carries folded back into 16 bits. -/
def ones_complement_checksum {m : Type → Type} [Monad m] (p : Ptr m) (b : Nat) (sum : Nat) :
    m Nat := do
  let bs ← readBytes p 0 (2 * (b / 2))
  let words := (List.range (b / 2)).map
    (fun i => 256 * (bs.getD (2 * i) 0).val + (bs.getD (2 * i + 1) 0).val)
  let s := (sum + words.sum) % 4294967296
  pure (if s = 0 then 0 else (s - 1) % 65535 + 1)

/-! ## The analyzer -/

/-- The part of the `Connection` the analyzer reads. -/
structure Connection where
  OrigAddr : IPAddr
  RespAddr : IPAddr
  deriving DecidableEq, Repr

/-- The data members of `ICMP_Analyzer`; `icmp_conn_val = none` is the null pointer. -/
structure ICMP_Analyzer where
  conn : Connection
  icmp_conn_val : Option icmp_conn
  type : Int
  code : Int
  request_len : Int
  reply_len : Int
  deriving DecidableEq, Repr

/-- The constructor `ICMP_Analyzer::ICMP_Analyzer(Connection* c)`.  It leaves `type` and
`code` uninitialised: `type0` and `code0` are whatever they hold. -/
def ICMP_Analyzer.new (c : Connection) (type0 code0 : Int) : ICMP_Analyzer where
  conn := c
  icmp_conn_val := none
  type := type0
  code := code0
  request_len := -1
  reply_len := -1

/-- The field `icmpp->icmp_type`, promoted to `int`. -/
def icmp_type {m : Type → Type} [Monad m] (icmpp : Ptr m) : m Int := do
  let b ← icmpp 0
  pure (b.val : Int)

/-- The field `icmpp->icmp_code`, promoted to `int`. -/
def icmp_code {m : Type → Type} [Monad m] (icmpp : Ptr m) : m Int := do
  let b ← icmpp 1
  pure (b.val : Int)

/-- The function `ICMP_Analyzer::BuildICMPVal`: returns the analyzer after the call and the record
returned (reference counting is not modelled). -/
def BuildICMPVal {m : Type → Type} [Monad m] (self : ICMP_Analyzer) (icmpp : Ptr m)
    (len : Int) (icmpv6 : Int) : m (ICMP_Analyzer × icmp_conn) :=
  match self.icmp_conn_val with
  | some v => pure (self, v)
  | none => do
    let t ← icmpp 0
    let c ← icmpp 1
    let v : icmp_conn :=
      { orig_h := self.conn.OrigAddr, resp_h := self.conn.RespAddr,
        itype := t.val, icode := c.val, len := len, v6 := icmpv6 }
    pure ({ self with icmp_conn_val := some v }, v)

/-- The function `ICMP_Analyzer::ICMPEvent`. -/
def ICMPEvent {m : Type → Type} [Monad m] (self : ICMP_Analyzer) (f : EventHandlerPtr)
    (icmpp : Ptr m) (len : Int) (icmpv6 : Int) : m (ICMP_Analyzer × List Action) :=
  match f with
  | none => pure (self, [])
  | some e => do
    let (self, v) ← BuildICMPVal self icmpp len icmpv6
    pure (self, [Action.ConnectionEvent e [Val.conn_val, Val.icmp_conn_val v]])

/-- The function `ICMP_Analyzer::GetContextProtocol`: returns (`proto`, `*src_port`, `*dst_port`).  In
the first `switch`, `case 58` has no `break` and falls through to `default`. -/
def GetContextProtocol {m : Type → Type} [Monad m] (g : Globals m) (ip_hdr : IP_Hdr m) :
    m (TransportProto × Nat × Nat) := do
  let ip_hdr_len ← ip_hdr.HdrLen
  let ip4 := ip_hdr.ip4
  let transport_hdr : Ptr m := ip_hdr.hdr.add ip_hdr_len
  let next_proto ← ip_hdr.NextProto
  let proto : TransportProto :=
    if next_proto = 1 then .TRANSPORT_ICMP
    else if next_proto = 6 then .TRANSPORT_TCP
    else if next_proto = 17 then .TRANSPORT_UDP
    else if next_proto = 58 then .TRANSPORT_UNKNOWN
    else .TRANSPORT_UNKNOWN
  match proto with
  | .TRANSPORT_ICMP => do
    let icmpp := transport_hdr
    let t ← icmp_type icmpp
    let src_port := ntohs g.little_endian t
    let t2 ← icmp_type icmpp
    let c ← icmp_code icmpp
    if ip4 then
      pure (proto, src_port, ntohs g.little_endian (ICMP4_counterpart t2 c).1)
    else
      pure (proto, src_port, ntohs g.little_endian (ICMP6_counterpart t2 c).1)
  | .TRANSPORT_TCP => do
    let th_sport ← load16 g.little_endian transport_hdr 0
    let th_dport ← load16 g.little_endian transport_hdr 2
    pure (proto, ntohs g.little_endian th_sport, ntohs g.little_endian th_dport)
  | .TRANSPORT_UDP => do
    let uh_sport ← load16 g.little_endian transport_hdr 0
    let uh_dport ← load16 g.little_endian transport_hdr 2
    pure (proto, ntohs g.little_endian uh_sport, ntohs g.little_endian uh_dport)
  | .TRANSPORT_UNKNOWN => pure (proto, ntohs g.little_endian 0, ntohs g.little_endian 0)

/-- The function `ICMP_Analyzer::ExtractICMP4Context(len, data)`.  `ip_hdr` is the view
`IP_Hdr ip_hdr_data((const struct ip*) data)` that the source builds in its first line;
`sizeof(struct ip)` is 20. -/
def ExtractICMP4Context {m : Type → Type} [Monad m] (g : Globals m) (len : Int)
    (ip_hdr : IP_Hdr m) : m icmp_context := do
  let ip_hdr_len ← ip_hdr.HdrLen
  if ip_hdr_len < 20 ∨ ip_hdr_len > uint32 len then
    -- the branch without an entire IP header
    pure
      { id := { orig_h := 0, orig_p := ⟨0, .TRANSPORT_UNKNOWN⟩,
                resp_h := 0, resp_p := ⟨0, .TRANSPORT_UNKNOWN⟩ },
        len := 0, proto := TransportProto.TRANSPORT_UNKNOWN.toNat, bad_hdr_len := 1,
        bad_checksum := 0, frag_offset := 0, MF := 0, DF := 0 }
  else do
    let ip_len ← ip_hdr.TotalLen
    let sum ← ones_complement_checksum ip_hdr.hdr ip_hdr_len 0
    let bad_checksum : Int := if sum ≠ 0xffff then 1 else 0
    let src_addr ← ip_hdr.SrcAddr
    let dst_addr ← ip_hdr.DstAddr
    let frag_field ← ip_hdr.FragField
    let DF ← ip_hdr.DF
    let MF : Int := ((frag_field &&& 0x2000 : Nat) : Int)
    let frag_offset := frag_field &&& 0x1fff
    let (proto, src_port, dst_port, bad_hdr_len) ←
      if uint32 len ≥ (ip_hdr_len + 4) % 4294967296 then do
        let (proto, src_port, dst_port) ← GetContextProtocol g ip_hdr
        pure (proto, src_port, dst_port, (0 : Int))
      else
        -- 4 above is the magic number meaning that both port numbers are included.
        pure (TransportProto.TRANSPORT_UNKNOWN, 0, 0, (1 : Int))
    pure
      { id := { orig_h := src_addr, orig_p := ⟨src_port, proto⟩,
                resp_h := dst_addr, resp_p := ⟨dst_port, proto⟩ },
        len := ip_len, proto := proto.toNat, bad_hdr_len := bad_hdr_len,
        bad_checksum := bad_checksum, frag_offset := frag_offset, MF := MF, DF := DF }

/-- The function `ICMP_Analyzer::ExtractICMP6Context(len, data)`.  `ip_hdr` is the view
`IP_Hdr ip_hdr_data((const struct ip6_hdr*) data)` that the source builds in its first
line; `sizeof(struct ip6_hdr)` is 40.  The condition `ip_hdr->NextProto() == 58 || 17`
evaluates its left operand and is then true, `17` being non-zero. -/
def ExtractICMP6Context {m : Type → Type} [Monad m] (g : Globals m) (len : Int)
    (ip_hdr : IP_Hdr m) : m icmp_context := do
  let ip_hdr_len ← ip_hdr.HdrLen
  let frag_offset : Nat := 0
  let (ip_len, src_addr, dst_addr, proto, src_port, dst_port, bad_hdr_len) ←
    if ip_hdr_len < 40 ∨ ip_hdr_len ≠ 40 then
      pure ((0 : Nat), (0 : IPAddr), (0 : IPAddr), TransportProto.TRANSPORT_UNKNOWN,
        (0 : Nat), (0 : Nat), (1 : Int))
    else do
      let ip_len ← ip_hdr.TotalLen
      let src_addr ← ip_hdr.SrcAddr
      let dst_addr ← ip_hdr.DstAddr
      if uint32 len ≥ (ip_hdr_len + 4) % 4294967296 then do
        let (proto, src_port, dst_port) ← GetContextProtocol g ip_hdr
        pure (ip_len, src_addr, dst_addr, proto, src_port, dst_port, (0 : Int))
      else
        pure (ip_len, src_addr, dst_addr, TransportProto.TRANSPORT_UNKNOWN, 0, 0, (1 : Int))
  -- TransportProto Hack
  let next_proto ← ip_hdr.NextProto
  let field2 : Nat := if next_proto = 58 ∨ (17 : Nat) ≠ 0 then 58 else proto.toNat
  pure
    { id := { orig_h := src_addr, orig_p := ⟨src_port, proto⟩,
              resp_h := dst_addr, resp_p := ⟨dst_port, proto⟩ },
      len := ip_len, proto := field2, bad_hdr_len := bad_hdr_len,
      bad_checksum := 0, frag_offset := frag_offset, MF := 0, DF := 1 }

/-- The function `ICMP_Analyzer::UpdateEndpointVal(endp, is_orig)`: the values assigned to fields 0
(size) and 1 (state) of `endp` (the call that enables the status update timer of the
connection is not modelled). -/
def UpdateEndpointVal (self : ICMP_Analyzer) (is_orig : Int) : Int × ICMP_EndpointState :=
  let size := if is_orig ≠ 0 then self.request_len else self.reply_len
  if size < 0 then (0, .ICMP_INACTIVE) else (size, .ICMP_ACTIVE)

/-- The function `ICMP_Analyzer::UpdateConnVal`: the values given to the `orig` and `resp` endpoints. -/
def UpdateConnVal (self : ICMP_Analyzer) :
    (Int × ICMP_EndpointState) × (Int × ICMP_EndpointState) :=
  (UpdateEndpointVal self 1, UpdateEndpointVal self 0)

/-- The function `BroString(data, n, 0)`: copies `n` bytes from `data`, the count converted to
`size_t`. -/
def BroString {m : Type → Type} [Monad m] (data : Ptr m) (n : Int) : m (List u_char) :=
  readBytes data 0 (n % 18446744073709551616).toNat

/-- The function `ICMP_Analyzer::Echo`. -/
def Echo {m : Type → Type} [Monad m] (g : Globals m) (self : ICMP_Analyzer) (icmpp : Ptr m)
    (len caplen : Int) (data : Ptr m) (ip_hdr : IP_Hdr m) :
    m (ICMP_Analyzer × List Action) := do
  let next_proto ← ip_hdr.NextProto
  let t ← icmp_type icmpp
  let f : EventHandlerPtr :=
    if next_proto = IPPROTO_ICMPV6 then
      (if t = ICMP6_ECHO_REQUEST then g.handler .icmp_echo_request
       else g.handler .icmp_echo_reply)
    else
      (if t = ICMP_ECHO then g.handler .icmp_echo_request else g.handler .icmp_echo_reply)
  match f with
  | none => pure (self, [])
  | some e => do
    let icd_id ← load16 g.little_endian icmpp 4
    let iid : Int := ntohs g.little_endian icd_id
    let icd_seq ← load16 g.little_endian icmpp 6
    let iseq : Int := ntohs g.little_endian icd_seq
    let payload ← BroString data caplen
    let next_proto2 ← ip_hdr.NextProto
    let (self, v) ← BuildICMPVal self icmpp len (if next_proto2 ≠ IPPROTO_ICMP then 1 else 0)
    pure (self, [Action.ConnectionEvent e
      [Val.conn_val, Val.icmp_conn_val v, Val.count iid, Val.count iseq, Val.string payload]])

/-- The function `ICMP_Analyzer::Router`. -/
def Router {m : Type → Type} [Monad m] (g : Globals m) (self : ICMP_Analyzer)
    (icmpp : Ptr m) (len : Int) : m (ICMP_Analyzer × List Action) := do
  let t ← icmp_type icmpp
  if t = ND_ROUTER_ADVERT then do
    let f := g.handler .icmp_router_advertisement
    let (self, v) ← BuildICMPVal self icmpp len 1
    -- ConnectionEvent(f, vl) with a null handler delivers nothing
    match f with
    | none => pure (self, [])
    | some e => pure (self, [Action.ConnectionEvent e [Val.conn_val, Val.icmp_conn_val v]])
  else
    ICMPEvent self (g.handler .icmp_sent) icmpp len 1

/-- The function `ICMP_Analyzer::Context4`. -/
def Context4 {m : Type → Type} [Monad m] (g : Globals m) (self : ICMP_Analyzer)
    (icmpp : Ptr m) (len caplen : Int) (data : Ptr m) : m (ICMP_Analyzer × List Action) := do
  let t ← icmp_type icmpp
  let f : EventHandlerPtr :=
    if t = ICMP_UNREACH then g.handler .icmp_unreachable
    else if t = ICMP_TIMXCEED then g.handler .icmp_error_message
    else none
  match f with
  | none => pure (self, [])
  | some e => do
    let (self, v) ← BuildICMPVal self icmpp len 0
    let c ← icmp_code icmpp
    let ctx ← ExtractICMP4Context g caplen (IP_Hdr.ofIp4 data)
    pure (self, [Action.ConnectionEvent e
      [Val.conn_val, Val.icmp_conn_val v, Val.count c, Val.context ctx]])

/-- The function `ICMP_Analyzer::Context6`. -/
def Context6 {m : Type → Type} [Monad m] (g : Globals m) (self : ICMP_Analyzer)
    (icmpp : Ptr m) (len caplen : Int) (data : Ptr m) : m (ICMP_Analyzer × List Action) := do
  let t ← icmp_type icmpp
  let f : EventHandlerPtr :=
    if t = ICMP6_DST_UNREACH then g.handler .icmp_unreachable
    else if t = ICMP6_PARAM_PROB ∨ t = ICMP6_TIME_EXCEEDED ∨ t = ICMP6_PACKET_TOO_BIG then
      g.handler .icmp_error_message
    else none
  match f with
  | none => pure (self, [])
  | some e => do
    let (self, v) ← BuildICMPVal self icmpp len 1
    let c ← icmp_code icmpp
    let ctx ← ExtractICMP6Context g caplen (IP_Hdr.ofIp6 data)
    pure (self, [Action.ConnectionEvent e
      [Val.conn_val, Val.icmp_conn_val v, Val.count c, Val.context ctx]])

/-- The function `ICMP_Analyzer::NextICMP4`. -/
def NextICMP4 {m : Type → Type} [Monad m] (g : Globals m) (self : ICMP_Analyzer)
    (icmpp : Ptr m) (len caplen : Int) (data : Ptr m) (ip_hdr : IP_Hdr m) :
    m (ICMP_Analyzer × List Action) := do
  let t ← icmp_type icmpp
  if t = ICMP_ECHO ∨ t = ICMP_ECHOREPLY then
    Echo g self icmpp len caplen data ip_hdr
  else if t = ICMP_UNREACH ∨ t = ICMP_TIMXCEED then
    Context4 g self icmpp len caplen data
  else
    ICMPEvent self (g.handler .icmp_sent) icmpp len 0

/-- The function `ICMP_Analyzer::NextICMP6`. -/
def NextICMP6 {m : Type → Type} [Monad m] (g : Globals m) (self : ICMP_Analyzer)
    (icmpp : Ptr m) (len caplen : Int) (data : Ptr m) (ip_hdr : IP_Hdr m) :
    m (ICMP_Analyzer × List Action) := do
  let t ← icmp_type icmpp
  if t = ICMP6_ECHO_REQUEST ∨ t = ICMP6_ECHO_REPLY then
    Echo g self icmpp len caplen data ip_hdr
  else if t = ICMP6_PARAM_PROB ∨ t = ICMP6_TIME_EXCEEDED ∨ t = ICMP6_PACKET_TOO_BIG
      ∨ t = ICMP6_DST_UNREACH then
    Context6 g self icmpp len caplen data
  else if t = ND_REDIRECT ∨ t = ND_ROUTER_SOLICIT ∨ t = ICMP6_ROUTER_RENUMBERING
      ∨ t = ND_ROUTER_ADVERT then
    Router g self icmpp len
  else
    ICMPEvent self (g.handler .icmp_sent) icmpp len 1

/-- The checksum block of `DeliverPacket` (`if ( ! ignore_checksums ) ...`): `none` lets
the packet through, `some a` ends its processing with the action `a` (the `Weird` before
the `return`, or the `InternalError` of the `default` case). -/
def DeliverPacket_checksum {m : Type → Type} [Monad m] (g : Globals m) (icmpp : Ptr m)
    (ip : IP_Hdr m) (len : Int) : m (Option Action) := do
  if ¬ g.ignore_checksums then do
    let next_proto ← ip.NextProto
    if next_proto = IPPROTO_ICMP then do
      let chksum ← g.icmp_checksum icmpp len
      pure (if chksum ≠ 0xffff then some (Action.Weird "bad_ICMP6_checksum") else none)
    else if next_proto = IPPROTO_ICMPV6 then do
      let chksum ← g.icmp6_checksum icmpp ip len
      pure (if chksum ≠ 0xffff then some (Action.Weird "bad_ICMP6_checksum") else none)
    else
      pure (some (Action.InternalError "unexpected IP proto in ICMP analyzer"))
  else
    pure none

/-- The function `ICMP_Analyzer::DeliverPacket(len, data, is_orig, seq, ip, caplen)`: returns the
analyzer after the call and the actions taken, in order.  A failed `assert` and
`InternalError` end the run. -/
def DeliverPacket {m : Type → Type} [Monad m] (g : Globals m) (self : ICMP_Analyzer)
    (len : Int) (data : Ptr m) (is_orig : Bool) (seq : Int) (ip : IP_Hdr m) (caplen : Int) :
    m (ICMP_Analyzer × List Action) := do
  let tr0 : List Action :=
    Action.TransportLayerAnalyzer_DeliverPacket ::
      (if g.packet_contents then [Action.PacketContents (min len caplen - 8)] else [])
  let icmpp := data
  if ¬ (caplen ≥ len) then
    pure (self, tr0 ++ [Action.assert_failed])
  else do
    let stop ← DeliverPacket_checksum g icmpp ip len
    match stop with
    | some a => pure (self, tr0 ++ [a])
    | none => do
      let tr1 := tr0 ++ [Action.SetLastTime] ++
        (if g.rule_matcher ∧ ¬ g.MatcherInitialized is_orig then
          [Action.InitEndpointMatcher] else [])
      let type ← icmp_type icmpp
      let code ← icmp_code icmpp
      let self := { self with type := type, code := code }
      -- Move past common portion of ICMP header.
      let data := data.add 8
      let caplen := caplen - 8
      let len := len - 8
      let next_proto ← ip.NextProto
      let (self, events) ←
        if next_proto = IPPROTO_ICMP then NextICMP4 g self icmpp len caplen data ip
        else NextICMP6 g self icmpp len caplen data ip
      pure (self, tr1 ++ events ++
        (if caplen ≥ len then [Action.ForwardPacket len is_orig seq caplen] else []) ++
        (if g.rule_matcher then [Action.Match len is_orig] else []))

/-- The events delivered by a run: the `ConnectionEvent` actions of its trace, in order. -/
def events : List Action → List (Event × List Val)
  | [] => []
  | Action.ConnectionEvent f vl :: rest => (f, vl) :: events rest
  | _ :: rest => events rest

/-- The anomalies raised by a run: the `Weird` actions of its trace, in order. -/
def weirds : List Action → List String
  | [] => []
  | Action.Weird name :: rest => name :: weirds rest
  | _ :: rest => weirds rest

/-- Raw memory holding the given bytes at the pointer, followed by zero bytes. -/
def Ptr.ofMemory (bytes : List u_char) : Ptr Id := fun i => bytes.getD i 0

/-- A sample configuration: checksums validated, every event subscribed, little-endian
host, and checksum routines that report the sentinel. -/
def sampleGlobals (m : Type → Type) [Monad m] : Globals m where
  packet_contents := false
  ignore_checksums := false
  rule_matcher := false
  MatcherInitialized := fun _ => false
  subscribed := fun _ => true
  little_endian := true
  icmp_checksum := fun _ _ => pure 0xffff
  icmp6_checksum := fun _ _ _ => pure 0xffff

/-- A sequence of `BuildICMPVal` calls on one analyzer, each with its own header pointer,
length and version flag: the records returned, in call order. -/
def BuildICMPVal_calls (self : ICMP_Analyzer) : List (Ptr Id × Int × Int) → List icmp_conn
  | [] => []
  | (icmpp, len, icmpv6) :: rest =>
    let r := Id.run (BuildICMPVal self icmpp len icmpv6)
    r.2 :: BuildICMPVal_calls r.1 rest

/-- An ICMP error payload: an embedded IPv4 datagram with a 20-byte header (protocol 17,
UDP) followed by a UDP header with source port 53 and destination port 12345. -/
def sampleUdpContext : List u_char :=
  [0x45, 0, 0, 28, 0, 0, 0x40, 0, 64, 17, 0, 0, 10, 0, 0, 1, 10, 0, 0, 2,
   0, 53, 0x30, 0x39, 0, 8, 0, 0]

/-- An outer IPv4 header announcing ICMP (protocol 1). -/
def sampleOuter4 : IP_Hdr Id :=
  IP_Hdr.ofIp4 (Ptr.ofMemory [0x45, 0, 0, 32, 0, 0, 0, 0, 64, 1, 0, 0, 10, 0, 0, 1, 10, 0, 0, 2])

/-- An ICMPv4 echo request of 12 bytes: identifier 0x1234, sequence 1, payload "ping". -/
def sampleEcho : List u_char := [8, 0, 0, 0, 0x12, 0x34, 0, 1, 112, 105, 110, 103]

/-- The sample configuration with checksum routines that report 0 instead of the
sentinel. -/
def sampleGlobalsBadSum : Globals Id :=
  { sampleGlobals Id with icmp_checksum := fun _ _ => pure 0, icmp6_checksum := fun _ _ _ => pure 0 }

/-- An analyzer in the middle of a flow: summary cached, type and code recorded. -/
def sampleAnalyzer : ICMP_Analyzer where
  conn := ⟨1, 2⟩
  icmp_conn_val := some ⟨1, 2, 8, 0, 4, 0⟩
  type := 8
  code := 0
  request_len := -1
  reply_len := -1

/-- A trace that consists of exactly one delivered event. -/
def oneEvent (tr : List Action) : Prop := ∃ e vl, tr = [Action.ConnectionEvent e vl]

/-- An ICMPv4 redirect (type 5, code 1) with four bytes after the common header. -/
def sampleRedirect : List u_char := [5, 1, 0, 0, 10, 0, 0, 1, 1, 2, 3, 4]

/-- An ICMPv6 neighbor solicitation (type 135, code 0). -/
def sampleNeighborSolicit : List u_char := [135, 0, 0, 0, 0, 0, 0, 0, 1, 2, 3, 4]

/-- An outer IPv6 header announcing ICMPv6 (next header 58). -/
def sampleOuter6 : IP_Hdr Id :=
  IP_Hdr.ofIp6 (Ptr.ofMemory [0x60, 0, 0, 0, 0, 12, 58, 64])

/-- The outer IPv4 header announcing ICMP (protocol 1), over a bounds-checked buffer. -/
def sampleOuter4Checked : IP_Hdr Option :=
  IP_Hdr.ofIp4
    (Ptr.ofBuffer [0x45, 0, 0, 32, 0, 0, 0, 0, 64, 1, 0, 0, 10, 0, 0, 1, 10, 0, 0, 2])

/-- The sample configuration on a big-endian host. -/
def sampleGlobalsBE (m : Type → Type) [Monad m] : Globals m :=
  { sampleGlobals m with little_endian := false }

/-- An ICMP error payload: an embedded IPv6 datagram (40-byte header, next header 58)
followed by an ICMPv6 echo request (type 128, code 0). -/
def sampleIcmp6Context : List u_char :=
  [0x60, 0, 0, 0, 0, 8, 58, 64,
   0xfe, 0x80, 0, 0, 0, 0, 0, 0, 0, 0, 0, 0, 0, 0, 0, 1,
   0xfe, 0x80, 0, 0, 0, 0, 0, 0, 0, 0, 0, 0, 0, 0, 0, 2,
   128, 0, 0, 0, 0, 1, 0, 1]

/-- An ICMP error payload: an embedded IPv4 datagram with a 20-byte header (protocol 1,
ICMP) followed by an ICMP timestamp request (type 13, code 0). -/
def sampleIcmpContext : List u_char :=
  [0x45, 0, 0, 28, 0, 0, 0x40, 0, 64, 1, 0, 0, 10, 0, 0, 1, 10, 0, 0, 2,
   13, 0, 0, 0, 0, 1, 0, 1]

/-- An ICMP error payload cut after the embedded IPv4 header and two more bytes: the
header (length 20, fragment field 0x2005, protocol 17) is complete, the ports are not. -/
def sampleCutContext : List u_char :=
  [0x45, 0, 0, 28, 0, 0, 0x20, 0x05, 64, 17, 0, 0, 10, 0, 0, 1, 10, 0, 0, 2, 0, 53]

/-! ## Theorems -/

theorem ICMP4_counterpart_unlisted (t c : Int) (h : t ∉ ICMP4_cases) :
    ICMP4_counterpart t c = (c, true) := by
  simp only [ICMP4_cases, List.mem_cons, List.mem_singleton, List.not_mem_nil, or_false,
    not_or] at h
  obtain ⟨h1, h2, h3, h4, h5, h6, h7, h8, h9⟩ := h
  simp only [ICMP4_counterpart, h1, h2, h3, h4, h5, h6, h7, h8, h9, if_false]

theorem ICMP4_counterpart_listed (t c : Int) (h : t ∈ ICMP4_cases) :
    (ICMP4_counterpart t c).2 = false := by
  simp only [ICMP4_cases, List.mem_cons, List.mem_singleton, List.not_mem_nil, or_false] at h
  rcases h with rfl | rfl | rfl | rfl | rfl | rfl | rfl | rfl | rfl <;> rfl

theorem ICMP6_counterpart_unlisted (t c : Int) (h : t ∉ ICMP6_cases) :
    ICMP6_counterpart t c = (c, true) := by
  simp only [ICMP6_cases, List.mem_cons, List.mem_singleton, List.not_mem_nil, or_false,
    not_or] at h
  obtain ⟨h1, h2, h3, h4, h5, h6, h7, h8, h9, h10, h11, h12⟩ := h
  simp only [ICMP6_counterpart, h1, h2, h3, h4, h5, h6, h7, h8, h9, h10, h11, h12, if_false]

theorem ICMP6_counterpart_listed (t c : Int) (h : t ∈ ICMP6_cases) :
    (ICMP6_counterpart t c).2 = false ∧
    (ICMP6_counterpart (ICMP6_counterpart t c).1 c) = (t, false) := by
  simp only [ICMP6_cases, List.mem_cons, List.mem_singleton, List.not_mem_nil, or_false] at h
  rcases h with rfl | rfl | rfl | rfl | rfl | rfl | rfl | rfl | rfl | rfl | rfl | rfl <;>
    exact ⟨rfl, rfl⟩

theorem ICMP6_cases_iff (t : Int) :
    t ∈ ICMP6_cases ↔ t ∈ [128, 129, 130, 131, 133, 134, 135, 136, 139, 140, 144, 145] := by
  simp only [ICMP6_cases, ICMP6_ECHO_REQUEST, ICMP6_ECHO_REPLY, ND_ROUTER_SOLICIT,
    ND_ROUTER_ADVERT, ND_NEIGHBOR_SOLICIT, ND_NEIGHBOR_ADVERT, MLD_LISTENER_QUERY,
    MLD_LISTENER_REPORT, List.mem_cons, List.mem_singleton, List.not_mem_nil, or_false]
  omega

/-- C2: `ICMP6_counterpart` is an involution on its request/reply pairs.  It reports
`is_one_way = false` exactly for the types 128/129, 130/131, 133/134, 135/136, 139/140
and 144/145, and for each of them the counterpart of the returned type (same code) is
again two-way and is the original type. -/
theorem ICMP6_counterpart_involution (t c : Int) :
    ((ICMP6_counterpart t c).2 = false ↔
      t ∈ [128, 129, 130, 131, 133, 134, 135, 136, 139, 140, 144, 145]) ∧
    ((ICMP6_counterpart t c).2 = false →
      (ICMP6_counterpart (ICMP6_counterpart t c).1 c).2 = false ∧
      (ICMP6_counterpart (ICMP6_counterpart t c).1 c).1 = t) := by
  rw [← ICMP6_cases_iff]
  by_cases h : t ∈ ICMP6_cases
  · obtain ⟨h1, h2⟩ := ICMP6_counterpart_listed t c h
    rw [h2]
    exact ⟨⟨fun _ => h, fun _ => h1⟩, fun _ => ⟨rfl, rfl⟩⟩
  · have h1 := ICMP6_counterpart_unlisted t c h
    rw [h1]
    exact ⟨⟨fun hf => (by simp at hf), fun hm => absurd hm h⟩, fun hf => (by simp at hf)⟩

/-- Witness of C2 at the echo request (128, code 0). -/
theorem ICMP6_counterpart_involution_witness :
    (ICMP6_counterpart 128 0).2 = false ∧
    (ICMP6_counterpart (ICMP6_counterpart 128 0).1 0).2 = false ∧
    (ICMP6_counterpart (ICMP6_counterpart 128 0).1 0).1 = 128 :=
  ⟨by decide, (ICMP6_counterpart_involution 128 0).2 (by decide)⟩

/-- C3: for both counterpart functions and every (type, code): a type that is not one of
the `case` labels of the table yields `is_one_way = true` and returns the input code
unchanged; a type that is a `case` label yields `is_one_way = false`.  Hence `is_one_way`
is true exactly for the types absent from the table.  (IPv4 router advertisement, 9,
occurs in the table only as a returned value and is not a `case` label.) -/
theorem counterpart_one_way_iff_unlisted (t c : Int) :
    (t ∉ ICMP4_cases → ICMP4_counterpart t c = (c, true)) ∧
    (t ∈ ICMP4_cases → (ICMP4_counterpart t c).2 = false) ∧
    (t ∉ ICMP6_cases → ICMP6_counterpart t c = (c, true)) ∧
    (t ∈ ICMP6_cases → (ICMP6_counterpart t c).2 = false) ∧
    ((ICMP4_counterpart t c).2 = true ↔ t ∉ ICMP4_cases) ∧
    ((ICMP6_counterpart t c).2 = true ↔ t ∉ ICMP6_cases) := by
  refine ⟨ICMP4_counterpart_unlisted t c, ICMP4_counterpart_listed t c,
    ICMP6_counterpart_unlisted t c, fun h => (ICMP6_counterpart_listed t c h).1, ?_, ?_⟩
  · by_cases h : t ∈ ICMP4_cases
    · simp [ICMP4_counterpart_listed t c h, h]
    · simp [ICMP4_counterpart_unlisted t c h, h]
  · by_cases h : t ∈ ICMP6_cases
    · simp [(ICMP6_counterpart_listed t c h).1, h]
    · simp [ICMP6_counterpart_unlisted t c h, h]

/-- Witness of C3: type 5 (redirect) is unlisted in the IPv4 table, type 8 is listed;
type 1 is unlisted in the IPv6 table, type 128 is listed. -/
theorem counterpart_one_way_iff_unlisted_witness :
    ICMP4_counterpart 5 7 = (7, true) ∧ (ICMP4_counterpart 8 7).2 = false ∧
    ICMP6_counterpart 1 7 = (7, true) ∧ (ICMP6_counterpart 128 7).2 = false :=
  ⟨(counterpart_one_way_iff_unlisted 5 7).1 (by decide),
   (counterpart_one_way_iff_unlisted 8 7).2.1 (by decide),
   (counterpart_one_way_iff_unlisted 1 7).2.2.1 (by decide),
   (counterpart_one_way_iff_unlisted 128 7).2.2.2.1 (by decide)⟩

/-- C1, evaluated on the code: `ICMP4_counterpart` maps router solicitation (10) to router
advertisement (9) with `is_one_way = false`, but has no `case` for router advertisement:
applied to 9 it takes the `default` branch, reports `is_one_way = true` and returns the
code (here 0), not 10.  The IPv6 table does map 134 back to 133. -/
theorem ICMP4_counterpart_router_not_involutive :
    ICMP4_counterpart ICMP_ROUTERSOLICIT 0 = (ICMP_ROUTERADVERT, false) ∧
    ICMP4_counterpart (ICMP4_counterpart ICMP_ROUTERSOLICIT 0).1 0 = (0, true) ∧
    ICMP6_counterpart (ICMP6_counterpart ND_ROUTER_SOLICIT 0).1 0 = (ND_ROUTER_SOLICIT, false) := by
  decide
theorem events_append (a b : List Action) : events (a ++ b) = events a ++ events b := by
  induction a with
  | nil => rfl
  | cons x xs ih => cases x <;> simp [events, ih]

theorem weirds_append (a b : List Action) : weirds (a ++ b) = weirds a ++ weirds b := by
  induction a with
  | nil => rfl
  | cons x xs ih => cases x <;> simp [weirds, ih]


theorem handler_of_subscribed (g : Globals Id) (hsub : ∀ e, g.subscribed e = true) (e : Event) :
    g.handler e = some e := by
  simp [Globals.handler, hsub]

theorem ICMPEvent_one (self : ICMP_Analyzer) (e : Event) (icmpp : Ptr Id) (len v6 : Int) :
    oneEvent (Id.run (ICMPEvent self (some e) icmpp len v6)).2 := by
  simp [ICMPEvent, oneEvent, Id.run]

theorem Echo_one (g : Globals Id) (hsub : ∀ e, g.subscribed e = true) (self : ICMP_Analyzer)
    (icmpp : Ptr Id) (len caplen : Int) (data : Ptr Id) (ip : IP_Hdr Id) :
    oneEvent (Id.run (Echo g self icmpp len caplen data ip)).2 := by
  simp only [Echo, handler_of_subscribed g hsub, Id.run, Id.bind_eq]
  split_ifs <;> simp [oneEvent]

theorem Router_one (g : Globals Id) (hsub : ∀ e, g.subscribed e = true) (self : ICMP_Analyzer)
    (icmpp : Ptr Id) (len : Int) :
    oneEvent (Id.run (Router g self icmpp len)).2 := by
  simp only [Router, handler_of_subscribed g hsub, Id.run, Id.bind_eq]
  split_ifs
  · simp [oneEvent]
  · exact ICMPEvent_one _ _ _ _ _

theorem Context4_one (g : Globals Id) (hsub : ∀ e, g.subscribed e = true)
    (self : ICMP_Analyzer) (icmpp : Ptr Id) (len caplen : Int) (data : Ptr Id)
    (ht : Id.run (icmp_type icmpp) = ICMP_UNREACH ∨ Id.run (icmp_type icmpp) = ICMP_TIMXCEED) :
    oneEvent (Id.run (Context4 g self icmpp len caplen data)).2 := by
  simp only [Context4, handler_of_subscribed g hsub]
  rcases ht with ht | ht <;> simp [Id.run] at ht <;> simp [oneEvent, Id.run, ht]

theorem Context6_one (g : Globals Id) (hsub : ∀ e, g.subscribed e = true)
    (self : ICMP_Analyzer) (icmpp : Ptr Id) (len caplen : Int) (data : Ptr Id)
    (ht : Id.run (icmp_type icmpp) = ICMP6_PARAM_PROB ∨
      Id.run (icmp_type icmpp) = ICMP6_TIME_EXCEEDED ∨
      Id.run (icmp_type icmpp) = ICMP6_PACKET_TOO_BIG ∨
      Id.run (icmp_type icmpp) = ICMP6_DST_UNREACH) :
    oneEvent (Id.run (Context6 g self icmpp len caplen data)).2 := by
  simp only [Context6, handler_of_subscribed g hsub]
  rcases ht with ht | ht | ht | ht <;> simp [Id.run] at ht <;> simp [oneEvent, Id.run, ht]

theorem NextICMP4_one (g : Globals Id) (hsub : ∀ e, g.subscribed e = true)
    (self : ICMP_Analyzer) (icmpp : Ptr Id) (len caplen : Int) (data : Ptr Id)
    (ip : IP_Hdr Id) :
    oneEvent (Id.run (NextICMP4 g self icmpp len caplen data ip)).2 := by
  simp only [NextICMP4, handler_of_subscribed g hsub, Id.run, Id.bind_eq]
  split_ifs with h1 h2
  · exact Echo_one g hsub _ _ _ _ _ _
  · exact Context4_one g hsub _ _ _ _ _ h2
  · exact ICMPEvent_one _ _ _ _ _

theorem NextICMP6_one (g : Globals Id) (hsub : ∀ e, g.subscribed e = true)
    (self : ICMP_Analyzer) (icmpp : Ptr Id) (len caplen : Int) (data : Ptr Id)
    (ip : IP_Hdr Id) :
    oneEvent (Id.run (NextICMP6 g self icmpp len caplen data ip)).2 := by
  simp only [NextICMP6, handler_of_subscribed g hsub, Id.run, Id.bind_eq]
  split_ifs with h1 h2 h3
  · exact Echo_one g hsub _ _ _ _ _ _
  · exact Context6_one g hsub _ _ _ _ _ h2
  · exact Router_one g hsub _ _ _
  · exact ICMPEvent_one _ _ _ _ _


theorem DeliverPacket_checksum_pass (g : Globals Id) (data : Ptr Id) (ip : IP_Hdr Id)
    (len : Int)
    (hsum : (Id.run ip.NextProto = IPPROTO_ICMP ∧ Id.run (g.icmp_checksum data len) = 0xffff) ∨
      (Id.run ip.NextProto = IPPROTO_ICMPV6 ∧ Id.run (g.icmp6_checksum data ip len) = 0xffff)) :
    DeliverPacket_checksum g data ip len = none := by
  simp only [DeliverPacket_checksum, Id.run, Id.bind_eq, Id.pure_eq] at hsum ⊢
  rcases hsum with ⟨h1, h2⟩ | ⟨h1, h2⟩ <;> simp [h1, h2]

/-- C4: for every ICMPv4 or ICMPv6 packet with `caplen >= len` whose checksum evaluates to
the sentinel 0xffff, all event kinds being subscribed, `DeliverPacket` delivers exactly
one event, which is one of `icmp_echo_request`, `icmp_echo_reply`, `icmp_unreachable`,
`icmp_error_message`, `icmp_router_advertisement` and `icmp_sent`, and raises no `Weird`.
This holds whatever bytes the packet memory holds. -/
theorem DeliverPacket_one_event (g : Globals Id) (self : ICMP_Analyzer) (len caplen : Int)
    (data : Ptr Id) (is_orig : Bool) (seq : Int) (ip : IP_Hdr Id)
    (hcap : caplen ≥ len)
    (hsub : ∀ e, g.subscribed e = true)
    (hsum : (Id.run ip.NextProto = IPPROTO_ICMP ∧ Id.run (g.icmp_checksum data len) = 0xffff) ∨
      (Id.run ip.NextProto = IPPROTO_ICMPV6 ∧ Id.run (g.icmp6_checksum data ip len) = 0xffff)) :
    (∃ e vl, events (Id.run (DeliverPacket g self len data is_orig seq ip caplen)).2 = [(e, vl)] ∧
      e ∈ [Event.icmp_echo_request, Event.icmp_echo_reply, Event.icmp_unreachable,
           Event.icmp_error_message, Event.icmp_router_advertisement, Event.icmp_sent]) ∧
    weirds (Id.run (DeliverPacket g self len data is_orig seq ip caplen)).2 = [] := by
  have hstop := DeliverPacket_checksum_pass g data ip len hsum
  simp only [DeliverPacket, Id.run, Id.bind_eq, Id.pure_eq, hcap, ge_iff_le, not_true_eq_false,
    if_false, hstop]
  by_cases hp : ip.NextProto = IPPROTO_ICMP
  · obtain ⟨e, vl, he⟩ := NextICMP4_one g hsub
      { self with type := icmp_type data, code := icmp_code data } data (len - 8) (caplen - 8)
      (data.add 8) ip
    simp only [Id.run] at he
    simp only [hp, if_true, he, events_append, weirds_append]
    refine ⟨⟨e, vl, ?_, ?_⟩, ?_⟩
    · split_ifs <;> simp [events]
    · cases e <;> simp
    · split_ifs <;> simp [weirds]
  · obtain ⟨e, vl, he⟩ := NextICMP6_one g hsub
      { self with type := icmp_type data, code := icmp_code data } data (len - 8) (caplen - 8)
      (data.add 8) ip
    simp only [Id.run] at he
    simp only [hp, if_false, he, events_append, weirds_append]
    refine ⟨⟨e, vl, ?_, ?_⟩, ?_⟩
    · split_ifs <;> simp [events]
    · cases e <;> simp
    · split_ifs <;> simp [weirds]

/-- Witness of C4: the 12-byte echo request delivers `icmp_echo_request` and nothing
else. -/
theorem DeliverPacket_one_event_witness :
    (∃ e vl, events (Id.run (DeliverPacket (sampleGlobals Id) (ICMP_Analyzer.new ⟨1, 2⟩ 0 0) 12
        (Ptr.ofMemory sampleEcho) true 0 sampleOuter4 12)).2 = [(e, vl)] ∧
      e ∈ [Event.icmp_echo_request, Event.icmp_echo_reply, Event.icmp_unreachable,
           Event.icmp_error_message, Event.icmp_router_advertisement, Event.icmp_sent]) ∧
    weirds (Id.run (DeliverPacket (sampleGlobals Id) (ICMP_Analyzer.new ⟨1, 2⟩ 0 0) 12
        (Ptr.ofMemory sampleEcho) true 0 sampleOuter4 12)).2 = [] :=
  DeliverPacket_one_event (sampleGlobals Id) (ICMP_Analyzer.new ⟨1, 2⟩ 0 0) 12 12
    (Ptr.ofMemory sampleEcho) true 0 sampleOuter4 (by decide) (fun _ => rfl)
    (Or.inl ⟨by decide, by decide⟩)

/-- C5: for every packet (with `caplen >= len`, as the source asserts) for which checksum
validation is enabled and the computed ICMPv4 or ICMPv6 checksum differs from 0xffff,
`DeliverPacket` raises the `Weird`, delivers no event, and returns with the analyzer
unchanged: recorded type and code, cached `icmp_conn_val`, `request_len` and `reply_len`
are as before the call.  All it has done is the base-class call, the hand-off of the raw
payload to `PacketContents` when that mode is configured, and the `Weird`. -/
theorem DeliverPacket_bad_checksum (g : Globals Id) (self : ICMP_Analyzer) (len caplen : Int)
    (data : Ptr Id) (is_orig : Bool) (seq : Int) (ip : IP_Hdr Id)
    (hcap : caplen ≥ len)
    (hen : g.ignore_checksums = false)
    (hsum : (Id.run ip.NextProto = IPPROTO_ICMP ∧ Id.run (g.icmp_checksum data len) ≠ 0xffff) ∨
      (Id.run ip.NextProto = IPPROTO_ICMPV6 ∧ Id.run (g.icmp6_checksum data ip len) ≠ 0xffff)) :
    weirds (Id.run (DeliverPacket g self len data is_orig seq ip caplen)).2
      = ["bad_ICMP6_checksum"] ∧
    events (Id.run (DeliverPacket g self len data is_orig seq ip caplen)).2 = [] ∧
    (Id.run (DeliverPacket g self len data is_orig seq ip caplen)).1 = self ∧
    (Id.run (DeliverPacket g self len data is_orig seq ip caplen)).2 =
      (Action.TransportLayerAnalyzer_DeliverPacket ::
        (if g.packet_contents then [Action.PacketContents (min len caplen - 8)] else [])) ++
      [Action.Weird "bad_ICMP6_checksum"] := by
  have hstop : DeliverPacket_checksum g data ip len
      = some (Action.Weird "bad_ICMP6_checksum") := by
    simp only [DeliverPacket_checksum, Id.run, Id.bind_eq, Id.pure_eq] at hsum ⊢
    rcases hsum with ⟨h1, h2⟩ | ⟨h1, h2⟩ <;> simp [h1, h2, hen]
  simp only [DeliverPacket, Id.run, Id.bind_eq, Id.pure_eq, hcap, ge_iff_le, not_true_eq_false,
    if_false, hstop]
  refine ⟨?_, ?_, trivial, trivial⟩
  · split_ifs <;> simp [weirds]
  · split_ifs <;> simp [events]

/-- Witness of C5: the echo request with a checksum routine reporting 0, on an analyzer in
the middle of a flow. -/
theorem DeliverPacket_bad_checksum_witness :
    weirds (Id.run (DeliverPacket sampleGlobalsBadSum sampleAnalyzer 12
        (Ptr.ofMemory sampleEcho) true 0 sampleOuter4 12)).2 = ["bad_ICMP6_checksum"] ∧
    events (Id.run (DeliverPacket sampleGlobalsBadSum sampleAnalyzer 12
        (Ptr.ofMemory sampleEcho) true 0 sampleOuter4 12)).2 = [] ∧
    (Id.run (DeliverPacket sampleGlobalsBadSum sampleAnalyzer 12
        (Ptr.ofMemory sampleEcho) true 0 sampleOuter4 12)).1 = sampleAnalyzer :=
  have h := DeliverPacket_bad_checksum sampleGlobalsBadSum sampleAnalyzer 12 12
    (Ptr.ofMemory sampleEcho) true 0 sampleOuter4 (by decide) rfl
    (Or.inl ⟨by decide, by decide⟩)
  ⟨h.1, h.2.1, h.2.2.1⟩

theorem BuildICMPVal_cached (self : ICMP_Analyzer) (v : icmp_conn)
    (h : self.icmp_conn_val = some v) (icmpp : Ptr Id) (len icmpv6 : Int) :
    Id.run (BuildICMPVal self icmpp len icmpv6) = (self, v) := by
  simp [BuildICMPVal, h, Id.run]

theorem BuildICMPVal_calls_cached (self : ICMP_Analyzer) (v : icmp_conn)
    (h : self.icmp_conn_val = some v) (calls : List (Ptr Id × Int × Int)) :
    BuildICMPVal_calls self calls = List.replicate calls.length v := by
  induction calls with
  | nil => rfl
  | cons c rest ih =>
    obtain ⟨icmpp, len, icmpv6⟩ := c
    simp only [BuildICMPVal_calls, BuildICMPVal_cached self v h, List.length_cons,
      List.replicate_succ, ih]

/-- C6: the summary record is built at most once per analyzer and never refreshed.  On an
analyzer without a cached record, after a first `BuildICMPVal` call with header
`icmpp1`, length `len1` and version flag `v6flag1`, that call and every later call, with
whatever header, length and flag, return the one record whose type, code, length and
is-v6 fields are those of the first call. -/
theorem BuildICMPVal_built_once (self : ICMP_Analyzer) (hfresh : self.icmp_conn_val = none)
    (icmpp1 : Ptr Id) (len1 v6flag1 : Int) (later : List (Ptr Id × Int × Int)) :
    BuildICMPVal_calls self ((icmpp1, len1, v6flag1) :: later) =
      List.replicate (later.length + 1)
        { orig_h := self.conn.OrigAddr, resp_h := self.conn.RespAddr,
          itype := (Id.run (icmpp1 0)).val, icode := (Id.run (icmpp1 1)).val,
          len := len1, v6 := v6flag1 } := by
  have h1 : ∀ v : icmp_conn, v = icmp_conn.mk self.conn.OrigAddr self.conn.RespAddr
        (Id.run (icmpp1 0)).val (Id.run (icmpp1 1)).val len1 v6flag1 →
      Id.run (BuildICMPVal self icmpp1 len1 v6flag1) =
        ({ self with icmp_conn_val := some v }, v) := by
    intro v hv
    simp [BuildICMPVal, hfresh, Id.run, hv]
  simp only [BuildICMPVal_calls, h1 _ rfl, List.replicate_succ]
  rw [BuildICMPVal_calls_cached _ _ rfl]

/-- Witness of C6: an echo request of length 4 first, then an unreachable (type 3, code 1)
of length 36 flagged IPv6: both calls return the record of the echo request. -/
theorem BuildICMPVal_built_once_witness :
    BuildICMPVal_calls (ICMP_Analyzer.new ⟨1, 2⟩ 0 0)
      [(Ptr.ofMemory sampleEcho, 4, 0), (Ptr.ofMemory [3, 1], 36, 1)]
      = [⟨1, 2, 8, 0, 4, 0⟩, ⟨1, 2, 8, 0, 4, 0⟩] :=
  BuildICMPVal_built_once (ICMP_Analyzer.new ⟨1, 2⟩ 0 0) rfl (Ptr.ofMemory sampleEcho) 4 0
    [(Ptr.ofMemory [3, 1], 36, 1)]

/-- C10: for a freshly constructed analyzer, `UpdateEndpointVal` reports size 0 and
`ICMP_INACTIVE` for the originator and for the responder endpoint (also through
`UpdateConnVal`); for any analyzer it reports (0, `ICMP_INACTIVE`) exactly when the stored
length of the direction is negative, and (length, `ICMP_ACTIVE`) otherwise. -/
theorem UpdateEndpointVal_reports (c : Connection) (type0 code0 : Int) (self : ICMP_Analyzer)
    (is_orig : Int) :
    UpdateEndpointVal (ICMP_Analyzer.new c type0 code0) 1
      = (0, ICMP_EndpointState.ICMP_INACTIVE) ∧
    UpdateEndpointVal (ICMP_Analyzer.new c type0 code0) 0
      = (0, ICMP_EndpointState.ICMP_INACTIVE) ∧
    UpdateConnVal (ICMP_Analyzer.new c type0 code0)
      = ((0, ICMP_EndpointState.ICMP_INACTIVE), (0, ICMP_EndpointState.ICMP_INACTIVE)) ∧
    (UpdateEndpointVal self is_orig = (0, ICMP_EndpointState.ICMP_INACTIVE) ↔
      (if is_orig ≠ 0 then self.request_len else self.reply_len) < 0) ∧
    (¬ (if is_orig ≠ 0 then self.request_len else self.reply_len) < 0 →
      UpdateEndpointVal self is_orig =
        ((if is_orig ≠ 0 then self.request_len else self.reply_len),
          ICMP_EndpointState.ICMP_ACTIVE)) := by
  refine ⟨rfl, rfl, rfl, ?_, ?_⟩
  · simp only [UpdateEndpointVal]
    split_ifs <;> simp_all
  · intro h
    simp only [UpdateEndpointVal, h, if_false]

/-- Witness of C10: an analyzer whose originator length is 64 reports (64, `ICMP_ACTIVE`)
for the originator. -/
theorem UpdateEndpointVal_reports_witness :
    UpdateEndpointVal { sampleAnalyzer with request_len := 64 } 1
      = (64, ICMP_EndpointState.ICMP_ACTIVE) :=
  (UpdateEndpointVal_reports ⟨1, 2⟩ 0 0 { sampleAnalyzer with request_len := 64 } 1).2.2.2.2
    (by decide)

theorem BuildICMPVal_lens (self : ICMP_Analyzer) (icmpp : Ptr Id) (len v6 : Int) :
    (Id.run (BuildICMPVal self icmpp len v6)).1.request_len = self.request_len ∧
    (Id.run (BuildICMPVal self icmpp len v6)).1.reply_len = self.reply_len := by
  unfold BuildICMPVal
  cases h : self.icmp_conn_val <;> simp [Id.run]

theorem ICMPEvent_lens (self : ICMP_Analyzer) (f : EventHandlerPtr) (icmpp : Ptr Id)
    (len v6 : Int) :
    (Id.run (ICMPEvent self f icmpp len v6)).1.request_len = self.request_len ∧
    (Id.run (ICMPEvent self f icmpp len v6)).1.reply_len = self.reply_len := by
  cases f with
  | none => simp [ICMPEvent, Id.run]
  | some e => simpa [ICMPEvent, Id.run] using BuildICMPVal_lens self icmpp len v6

theorem Echo_lens (g : Globals Id) (self : ICMP_Analyzer) (icmpp : Ptr Id) (len caplen : Int)
    (data : Ptr Id) (ip : IP_Hdr Id) :
    (Id.run (Echo g self icmpp len caplen data ip)).1.request_len = self.request_len ∧
    (Id.run (Echo g self icmpp len caplen data ip)).1.reply_len = self.reply_len := by
  simp only [Echo, Id.run, Id.bind_eq]
  split
  · simp
  · simpa [Id.run] using BuildICMPVal_lens self icmpp len _

theorem Router_lens (g : Globals Id) (self : ICMP_Analyzer) (icmpp : Ptr Id) (len : Int) :
    (Id.run (Router g self icmpp len)).1.request_len = self.request_len ∧
    (Id.run (Router g self icmpp len)).1.reply_len = self.reply_len := by
  simp only [Router, Id.run, Id.bind_eq]
  split_ifs
  · split <;> simpa [Id.run] using BuildICMPVal_lens self icmpp len 1
  · exact ICMPEvent_lens _ _ _ _ _

theorem Context4_lens (g : Globals Id) (self : ICMP_Analyzer) (icmpp : Ptr Id)
    (len caplen : Int) (data : Ptr Id) :
    (Id.run (Context4 g self icmpp len caplen data)).1.request_len = self.request_len ∧
    (Id.run (Context4 g self icmpp len caplen data)).1.reply_len = self.reply_len := by
  simp only [Context4, Id.run, Id.bind_eq]
  split
  · simp
  · simpa [Id.run] using BuildICMPVal_lens self icmpp len 0

theorem Context6_lens (g : Globals Id) (self : ICMP_Analyzer) (icmpp : Ptr Id)
    (len caplen : Int) (data : Ptr Id) :
    (Id.run (Context6 g self icmpp len caplen data)).1.request_len = self.request_len ∧
    (Id.run (Context6 g self icmpp len caplen data)).1.reply_len = self.reply_len := by
  simp only [Context6, Id.run, Id.bind_eq]
  split
  · simp
  · simpa [Id.run] using BuildICMPVal_lens self icmpp len 1

theorem NextICMP4_lens (g : Globals Id) (self : ICMP_Analyzer) (icmpp : Ptr Id)
    (len caplen : Int) (data : Ptr Id) (ip : IP_Hdr Id) :
    (Id.run (NextICMP4 g self icmpp len caplen data ip)).1.request_len = self.request_len ∧
    (Id.run (NextICMP4 g self icmpp len caplen data ip)).1.reply_len = self.reply_len := by
  simp only [NextICMP4, Id.run, Id.bind_eq]
  split_ifs
  · exact Echo_lens _ _ _ _ _ _ _
  · exact Context4_lens _ _ _ _ _ _
  · exact ICMPEvent_lens _ _ _ _ _

theorem NextICMP6_lens (g : Globals Id) (self : ICMP_Analyzer) (icmpp : Ptr Id)
    (len caplen : Int) (data : Ptr Id) (ip : IP_Hdr Id) :
    (Id.run (NextICMP6 g self icmpp len caplen data ip)).1.request_len = self.request_len ∧
    (Id.run (NextICMP6 g self icmpp len caplen data ip)).1.reply_len = self.reply_len := by
  simp only [NextICMP6, Id.run, Id.bind_eq]
  split_ifs
  · exact Echo_lens _ _ _ _ _ _ _
  · exact Context6_lens _ _ _ _ _ _
  · exact Router_lens _ _ _ _
  · exact ICMPEvent_lens _ _ _ _ _

theorem DeliverPacket_lens (g : Globals Id) (self : ICMP_Analyzer) (len caplen : Int)
    (data : Ptr Id) (is_orig : Bool) (seq : Int) (ip : IP_Hdr Id) :
    (Id.run (DeliverPacket g self len data is_orig seq ip caplen)).1.request_len
      = self.request_len ∧
    (Id.run (DeliverPacket g self len data is_orig seq ip caplen)).1.reply_len
      = self.reply_len := by
  simp only [DeliverPacket, Id.run, Id.bind_eq, Id.pure_eq]
  by_cases hcap : caplen ≥ len
  · simp only [hcap, not_true_eq_false, if_false]
    cases hstop : DeliverPacket_checksum g data ip len with
    | some a => exact ⟨rfl, rfl⟩
    | none =>
      by_cases hp : ip.NextProto = IPPROTO_ICMP
      · simp only [hp, if_true]
        exact NextICMP4_lens g _ _ _ _ _ _
      · simp only [hp, if_false]
        exact NextICMP6_lens g _ _ _ _ _ _
  · simp only [hcap, not_false_eq_true, if_true]
    exact ⟨trivial, trivial⟩

/-- C9, evaluated on the code: `DeliverPacket` never assigns `request_len` or `reply_len`.
After the first packet delivered to a freshly constructed analyzer, whatever its size,
direction and contents, `UpdateEndpointVal` still reports size 0 and `ICMP_INACTIVE` for
either direction, not the packet size with `ICMP_ACTIVE`. -/
theorem DeliverPacket_never_records_length (g : Globals Id) (c : Connection)
    (type0 code0 : Int) (len caplen : Int) (data : Ptr Id) (is_orig : Bool) (seq : Int)
    (ip : IP_Hdr Id) (dir : Int) :
    UpdateEndpointVal
      (Id.run (DeliverPacket g (ICMP_Analyzer.new c type0 code0) len data is_orig seq ip caplen)).1
      dir = (0, ICMP_EndpointState.ICMP_INACTIVE) := by
  obtain ⟨h1, h2⟩ := DeliverPacket_lens g (ICMP_Analyzer.new c type0 code0) len caplen data
    is_orig seq ip
  have h3 : (ICMP_Analyzer.new c type0 code0).request_len = -1 := rfl
  have h4 : (ICMP_Analyzer.new c type0 code0).reply_len = -1 := rfl
  rw [h3] at h1
  rw [h4] at h2
  simp only [UpdateEndpointVal, h1, h2]
  split_ifs <;> simp_all

theorem Ptr.ofBuffer_lt (buf : List u_char) (i : Nat) (h : i < buf.length) :
    Ptr.ofBuffer buf i = some (buf.getD i 0) := by
  simp [Ptr.ofBuffer, List.getD, List.getElem?_eq_getElem h]

theorem readBytes_isSome (p : Ptr Option) (f : Nat → u_char) (n off : Nat)
    (h : ∀ i, off ≤ i → i < off + n → p i = some (f i)) :
    ∃ bs, readBytes p off n = some bs := by
  induction n generalizing off with
  | zero => exact ⟨[], rfl⟩
  | succ n ih =>
    obtain ⟨bs, hbs⟩ := ih (off + 1) (fun i h1 h2 => h i (by omega) (by omega))
    refine ⟨f off :: bs, ?_⟩
    simp only [readBytes, h off (le_refl _) (by omega), hbs]
    rfl

theorem readBE_isSome (buf : List u_char) (off n : Nat) (h : off + n ≤ buf.length) :
    ∃ v, readBE (Ptr.ofBuffer buf) off n = some v := by
  obtain ⟨bs, hbs⟩ := readBytes_isSome (Ptr.ofBuffer buf) (fun i => buf.getD i 0) n off
    (fun i _ h2 => Ptr.ofBuffer_lt buf i (by omega))
  exact ⟨beValue bs, by simp only [readBE, hbs]; rfl⟩

theorem ones_complement_checksum_isSome (buf : List u_char) (b sum : Nat)
    (h : b ≤ buf.length) :
    ∃ v, ones_complement_checksum (Ptr.ofBuffer buf) b sum = some v := by
  obtain ⟨bs, hbs⟩ := readBytes_isSome (Ptr.ofBuffer buf) (fun i => buf.getD i 0)
    (2 * (b / 2)) 0 (fun i _ h2 => Ptr.ofBuffer_lt buf i (by omega))
  simp only [ones_complement_checksum, hbs]
  exact ⟨_, rfl⟩

theorem ntohs_load16 (le : Bool) (b0 b1 : u_char) :
    ntohs le ((if le then (b0.val + 256 * b1.val : Nat) else (256 * b0.val + b1.val : Nat)) : Int)
      = 256 * b0.val + b1.val := by
  have h0 := b0.isLt
  have h1 := b1.isLt
  cases le
  · simp only [ntohs]
    norm_cast
    simp
    omega
  · simp only [ntohs]
    norm_cast
    simp
    omega

theorem load16_ofBuffer (le : Bool) (buf : List u_char) (k off : Nat)
    (h : k + off + 1 < buf.length) :
    load16 le ((Ptr.ofBuffer buf).add k) off =
      some ((if le then ((buf.getD (k + off) 0).val + 256 * (buf.getD (k + off + 1) 0).val : Nat)
        else (256 * (buf.getD (k + off) 0).val + (buf.getD (k + off + 1) 0).val : Nat)) : Int) := by
  simp only [load16, Ptr.add, Ptr.ofBuffer_lt buf (k + off) (by omega),
    Ptr.ofBuffer_lt buf (k + (off + 1)) (by omega)]
  rfl

theorem ofIp4_HdrLen (buf : List u_char) (h : 0 < buf.length) :
    (IP_Hdr.ofIp4 (Ptr.ofBuffer buf)).HdrLen = some (((buf.getD 0 0).val % 16) * 4) := by
  simp only [IP_Hdr.ofIp4, Ptr.ofBuffer_lt buf 0 h]
  rfl

theorem ofIp4_NextProto (buf : List u_char) (h : 9 < buf.length) :
    (IP_Hdr.ofIp4 (Ptr.ofBuffer buf)).NextProto = some (buf.getD 9 0).val := by
  simp only [IP_Hdr.ofIp4, Ptr.ofBuffer_lt buf 9 h]
  rfl

theorem GetContextProtocol_ports (g : Globals Option) (buf : List u_char) (h : Nat)
    (hmin : 20 ≤ h) (hlen : h + 4 ≤ buf.length)
    (hhl : ((buf.getD 0 0).val % 16) * 4 = h)
    (hproto : (buf.getD 9 0).val = 17 ∨ (buf.getD 9 0).val = 6) :
    GetContextProtocol g (IP_Hdr.ofIp4 (Ptr.ofBuffer buf)) =
      some ((if (buf.getD 9 0).val = 17 then TransportProto.TRANSPORT_UDP
          else TransportProto.TRANSPORT_TCP),
        256 * (buf.getD h 0).val + (buf.getD (h + 1) 0).val,
        256 * (buf.getD (h + 2) 0).val + (buf.getD (h + 3) 0).val) := by
  have h1 := ofIp4_HdrLen buf (by omega)
  have h2 := ofIp4_NextProto buf (by omega)
  rw [hhl] at h1
  have h3 : (IP_Hdr.ofIp4 (Ptr.ofBuffer buf)).hdr = Ptr.ofBuffer buf := rfl
  have h4 : (IP_Hdr.ofIp4 (Ptr.ofBuffer buf)).ip4 = true := rfl
  have l0 := load16_ofBuffer g.little_endian buf h 0 (by omega)
  have l2 := load16_ofBuffer g.little_endian buf h 2 (by omega)
  simp only [GetContextProtocol, h1, h2, h3]
  simp only [Nat.add_zero] at l0 l2
  rcases hproto with hp | hp
  · simp only [hp, Option.bind_eq_bind, Option.some_bind]
    simp only [l0, l2, ntohs_load16, Option.bind_eq_bind, Option.some_bind, if_true]
    rfl
  · simp only [hp, Option.bind_eq_bind, Option.some_bind]
    simp only [l0, l2, ntohs_load16, Option.bind_eq_bind, Option.some_bind]
    rfl

/-- C7: for every ICMP error payload `buf` of `len = buf.length` captured bytes that starts
with an IPv4 header of length `h`, `20 <= h` and `h + 4 <= len`, and protocol 17 (UDP) or
6 (TCP), `ExtractICMP4Context` reads inside the buffer only and yields a record with
bad-header-length false, transport tag UDP (resp. TCP), source port the big-endian 16-bit
value at offset `h` and destination port the big-endian 16-bit value at offset `h + 2`,
on a little-endian as on a big-endian host. -/
theorem ExtractICMP4Context_ports (g : Globals Option) (buf : List u_char) (h : Nat)
    (hmax : buf.length < 2147483648)
    (hmin : 20 ≤ h) (hlen : h + 4 ≤ buf.length)
    (hhl : ((buf.getD 0 0).val % 16) * 4 = h)
    (hproto : (buf.getD 9 0).val = 17 ∨ (buf.getD 9 0).val = 6) :
    ∃ r, ExtractICMP4Context g (buf.length : Int) (IP_Hdr.ofIp4 (Ptr.ofBuffer buf)) = some r ∧
      r.bad_hdr_len = 0 ∧
      r.proto = (if (buf.getD 9 0).val = 17 then TransportProto.TRANSPORT_UDP
        else TransportProto.TRANSPORT_TCP).toNat ∧
      r.id.orig_p = ⟨256 * (buf.getD h 0).val + (buf.getD (h + 1) 0).val,
        if (buf.getD 9 0).val = 17 then TransportProto.TRANSPORT_UDP
        else TransportProto.TRANSPORT_TCP⟩ ∧
      r.id.resp_p = ⟨256 * (buf.getD (h + 2) 0).val + (buf.getD (h + 3) 0).val,
        if (buf.getD 9 0).val = 17 then TransportProto.TRANSPORT_UDP
        else TransportProto.TRANSPORT_TCP⟩ := by
  have h1 := ofIp4_HdrLen buf (by omega)
  rw [hhl] at h1
  have h3 : (IP_Hdr.ofIp4 (Ptr.ofBuffer buf)).hdr = Ptr.ofBuffer buf := rfl
  obtain ⟨tl, htl⟩ : ∃ v, (IP_Hdr.ofIp4 (Ptr.ofBuffer buf)).TotalLen = some v :=
    readBE_isSome buf 2 2 (by omega)
  obtain ⟨sa, hsa⟩ : ∃ v, (IP_Hdr.ofIp4 (Ptr.ofBuffer buf)).SrcAddr = some v :=
    readBE_isSome buf 12 4 (by omega)
  obtain ⟨da, hda⟩ : ∃ v, (IP_Hdr.ofIp4 (Ptr.ofBuffer buf)).DstAddr = some v :=
    readBE_isSome buf 16 4 (by omega)
  obtain ⟨ff, hff⟩ : ∃ v, (IP_Hdr.ofIp4 (Ptr.ofBuffer buf)).FragField = some v :=
    readBE_isSome buf 6 2 (by omega)
  have hdf : (IP_Hdr.ofIp4 (Ptr.ofBuffer buf)).DF
      = some (if ff &&& 0x4000 ≠ 0 then 1 else 0) := by
    have : readBE (Ptr.ofBuffer buf) 6 2 = some ff := hff
    simp only [IP_Hdr.ofIp4, this]
    rfl
  obtain ⟨ck, hck⟩ := ones_complement_checksum_isSome buf h 0 (by omega)
  have hgp := GetContextProtocol_ports g buf h hmin hlen hhl hproto
  have hu : uint32 (buf.length : Int) = buf.length := by
    simp only [uint32]
    omega
  have hc1 : ¬ (h < 20 ∨ h > uint32 (buf.length : Int)) := by
    rw [hu]
    omega
  have hc2 : uint32 (buf.length : Int) ≥ (h + 4) % 4294967296 := by
    rw [hu]
    omega
  simp only [ExtractICMP4Context, h1, h3, htl, hsa, hda, hff, hdf, hck, hgp, hc1, hc2,
    Option.bind_eq_bind, Option.some_bind, if_true, if_false]
  exact ⟨_, rfl, rfl, rfl, rfl, rfl⟩

/-- Witness of C7: the embedded UDP datagram with ports 53 and 12345 comes back as
(53, 12345), tagged UDP, with bad-header-length false. -/
theorem ExtractICMP4Context_ports_witness :
    ∃ r, ExtractICMP4Context (sampleGlobals Option) 28
        (IP_Hdr.ofIp4 (Ptr.ofBuffer sampleUdpContext)) = some r ∧
      r.bad_hdr_len = 0 ∧ r.proto = 2 ∧
      r.id.orig_p = ⟨53, TransportProto.TRANSPORT_UDP⟩ ∧
      r.id.resp_p = ⟨12345, TransportProto.TRANSPORT_UDP⟩ :=
  ExtractICMP4Context_ports (sampleGlobals Option) sampleUdpContext 20 (by decide) (by decide)
    (by decide) (by decide) (Or.inl (by decide))

/-- C11: `NextICMP4` sends every ICMPv4 type (0-255) down exactly one route: types 8 (ECHO)
and 0 (ECHOREPLY) go to `Echo`, types 3 (UNREACH) and 11 (TIMXCEED) go to `Context4`,
and every other type goes to `ICMPEvent` for `icmp_sent` with version flag 0: with
`icmp_sent` subscribed that is one `icmp_sent` event carrying the record that
`BuildICMPVal` returns for flag 0, whose is-v6 field is 0 when it is built by this call. -/
theorem NextICMP4_routes (g : Globals Id) (self : ICMP_Analyzer) (icmpp data : Ptr Id)
    (len caplen : Int) (ip_hdr : IP_Hdr Id) :
    (0 ≤ Id.run (icmp_type icmpp) ∧ Id.run (icmp_type icmpp) ≤ 255) ∧
    (Id.run (icmp_type icmpp) ∈ [ICMP_ECHO, ICMP_ECHOREPLY] →
      NextICMP4 g self icmpp len caplen data ip_hdr
        = Echo g self icmpp len caplen data ip_hdr) ∧
    (Id.run (icmp_type icmpp) ∈ [ICMP_UNREACH, ICMP_TIMXCEED] →
      NextICMP4 g self icmpp len caplen data ip_hdr
        = Context4 g self icmpp len caplen data) ∧
    (Id.run (icmp_type icmpp) ∉ [ICMP_ECHO, ICMP_ECHOREPLY, ICMP_UNREACH, ICMP_TIMXCEED] →
      NextICMP4 g self icmpp len caplen data ip_hdr
        = ICMPEvent self (g.handler Event.icmp_sent) icmpp len 0 ∧
      (g.subscribed Event.icmp_sent = true →
        (Id.run (NextICMP4 g self icmpp len caplen data ip_hdr)).2
          = [Action.ConnectionEvent Event.icmp_sent
              [Val.conn_val, Val.icmp_conn_val (Id.run (BuildICMPVal self icmpp len 0)).2]]) ∧
      (self.icmp_conn_val = none → (Id.run (BuildICMPVal self icmpp len 0)).2.v6 = 0)) := by
  refine ⟨?_, ?_, ?_, ?_⟩
  · have h := (icmpp 0).isLt
    simp only [icmp_type, Id.run, Id.bind_eq, Id.pure_eq]
    omega
  · intro h
    simp only [List.mem_cons, List.mem_singleton, List.not_mem_nil, or_false, Id.run] at h
    simp only [NextICMP4, Id.bind_eq, h, if_true]
  · intro h
    simp only [List.mem_cons, List.mem_singleton, List.not_mem_nil, or_false, Id.run] at h
    have h1 : ¬ (icmp_type icmpp = ICMP_ECHO ∨ icmp_type icmpp = ICMP_ECHOREPLY) := by
      rcases h with h | h <;> rw [h]
      · exact (by decide : ¬ ((3 : Int) = 8 ∨ (3 : Int) = 0))
      · exact (by decide : ¬ ((11 : Int) = 8 ∨ (11 : Int) = 0))
    simp only [NextICMP4, Id.bind_eq, h, h1, if_true, if_false]
  · intro h
    simp only [List.mem_cons, List.mem_singleton, List.not_mem_nil, or_false, Id.run,
      not_or] at h
    have h1 : ¬ (icmp_type icmpp = ICMP_ECHO ∨ icmp_type icmpp = ICMP_ECHOREPLY) := by
      simp only [not_or]
      exact ⟨h.1, h.2.1⟩
    have h2 : ¬ (icmp_type icmpp = ICMP_UNREACH ∨ icmp_type icmpp = ICMP_TIMXCEED) := by
      simp only [not_or]
      exact ⟨h.2.2.1, h.2.2.2⟩
    have h3 : NextICMP4 g self icmpp len caplen data ip_hdr
        = ICMPEvent self (g.handler Event.icmp_sent) icmpp len 0 := by
      simp only [NextICMP4, Id.bind_eq, h1, h2, if_false]
    refine ⟨h3, ?_, ?_⟩
    · intro hs
      rw [h3]
      simp [ICMPEvent, Globals.handler, hs, Id.run]
    · intro hn
      simp [BuildICMPVal, hn, Id.run]

/-- Witness of C11: a redirect (type 5) on a new analyzer yields one `icmp_sent` event
whose summary has is-v6 flag 0. -/
theorem NextICMP4_routes_witness :
    (Id.run (NextICMP4 (sampleGlobals Id) (ICMP_Analyzer.new ⟨1, 2⟩ 0 0)
        (Ptr.ofMemory sampleRedirect) 4 4 ((Ptr.ofMemory sampleRedirect).add 8)
        sampleOuter4)).2
      = [Action.ConnectionEvent Event.icmp_sent
          [Val.conn_val, Val.icmp_conn_val ⟨1, 2, 5, 1, 4, 0⟩]] :=
  ((NextICMP4_routes (sampleGlobals Id) (ICMP_Analyzer.new ⟨1, 2⟩ 0 0)
      (Ptr.ofMemory sampleRedirect) ((Ptr.ofMemory sampleRedirect).add 8) 4 4
      sampleOuter4).2.2.2 (by decide)).2.1 rfl

/-- C12: `NextICMP6` sends every ICMPv6 type (0-255) down exactly one route: 128 and 129 go
to `Echo`; 1, 2, 3 and 4 go to `Context6`; 133, 134, 137 and 138 go to `Router`; every
other type goes to `ICMPEvent` for `icmp_sent` with version flag 1.  Inside `Router`,
type 134 (with its event subscribed) delivers `icmp_router_advertisement` with the
record `BuildICMPVal` returns for flag 1, and every other type, so 133, 137 and 138, goes
to `ICMPEvent` for `icmp_sent` with version flag 1; the is-v6 field is 1 when the record
is built by this call. -/
theorem NextICMP6_routes (g : Globals Id) (self : ICMP_Analyzer) (icmpp data : Ptr Id)
    (len caplen : Int) (ip_hdr : IP_Hdr Id) :
    (0 ≤ Id.run (icmp_type icmpp) ∧ Id.run (icmp_type icmpp) ≤ 255) ∧
    (Id.run (icmp_type icmpp) ∈ [(128 : Int), 129] →
      NextICMP6 g self icmpp len caplen data ip_hdr
        = Echo g self icmpp len caplen data ip_hdr) ∧
    (Id.run (icmp_type icmpp) ∈ [(1 : Int), 2, 3, 4] →
      NextICMP6 g self icmpp len caplen data ip_hdr
        = Context6 g self icmpp len caplen data) ∧
    (Id.run (icmp_type icmpp) ∈ [(133 : Int), 134, 137, 138] →
      NextICMP6 g self icmpp len caplen data ip_hdr = Router g self icmpp len) ∧
    (Id.run (icmp_type icmpp) ∉ [(128 : Int), 129, 1, 2, 3, 4, 133, 134, 137, 138] →
      NextICMP6 g self icmpp len caplen data ip_hdr
        = ICMPEvent self (g.handler Event.icmp_sent) icmpp len 1) ∧
    (Id.run (icmp_type icmpp) = 134 → g.subscribed Event.icmp_router_advertisement = true →
      (Id.run (Router g self icmpp len)).2
        = [Action.ConnectionEvent Event.icmp_router_advertisement
            [Val.conn_val, Val.icmp_conn_val (Id.run (BuildICMPVal self icmpp len 1)).2]]) ∧
    (Id.run (icmp_type icmpp) ≠ 134 →
      Router g self icmpp len = ICMPEvent self (g.handler Event.icmp_sent) icmpp len 1) ∧
    (g.subscribed Event.icmp_sent = true →
      (Id.run (ICMPEvent self (g.handler Event.icmp_sent) icmpp len 1)).2
        = [Action.ConnectionEvent Event.icmp_sent
            [Val.conn_val, Val.icmp_conn_val (Id.run (BuildICMPVal self icmpp len 1)).2]]) ∧
    (self.icmp_conn_val = none → (Id.run (BuildICMPVal self icmpp len 1)).2.v6 = 1) := by
  have hb := (icmpp 0).isLt
  have ht : ∀ k : Int, (icmp_type icmpp = k) = (((icmpp 0).val : Int) = k) := fun _ => rfl
  simp only [Id.run, List.mem_cons, List.mem_singleton, List.not_mem_nil, or_false, not_or]
  refine ⟨?_, ?_, ?_, ?_, ?_, ?_, ?_, ?_, ?_⟩
  · simp only [icmp_type, Id.bind_eq, Id.pure_eq]
    omega
  · intro h
    simp only [NextICMP6, Id.bind_eq, h, if_true]
  · intro h
    rw [ht, ht, ht, ht] at h
    have h1 : ¬ (icmp_type icmpp = ICMP6_ECHO_REQUEST ∨ icmp_type icmpp = ICMP6_ECHO_REPLY) := by
      show ¬ (((icmpp 0).val : Int) = 128 ∨ ((icmpp 0).val : Int) = 129)
      omega
    have h2 : (icmp_type icmpp = ICMP6_PARAM_PROB ∨ icmp_type icmpp = ICMP6_TIME_EXCEEDED ∨
        icmp_type icmpp = ICMP6_PACKET_TOO_BIG ∨ icmp_type icmpp = ICMP6_DST_UNREACH) := by
      show (((icmpp 0).val : Int) = 4 ∨ ((icmpp 0).val : Int) = 3 ∨
        ((icmpp 0).val : Int) = 2 ∨ ((icmpp 0).val : Int) = 1)
      omega
    simp only [NextICMP6, Id.bind_eq, h1, h2, if_true, if_false]
  · intro h
    rw [ht, ht, ht, ht] at h
    have h1 : ¬ (icmp_type icmpp = ICMP6_ECHO_REQUEST ∨ icmp_type icmpp = ICMP6_ECHO_REPLY) := by
      show ¬ (((icmpp 0).val : Int) = 128 ∨ ((icmpp 0).val : Int) = 129)
      omega
    have h2 : ¬ (icmp_type icmpp = ICMP6_PARAM_PROB ∨ icmp_type icmpp = ICMP6_TIME_EXCEEDED ∨
        icmp_type icmpp = ICMP6_PACKET_TOO_BIG ∨ icmp_type icmpp = ICMP6_DST_UNREACH) := by
      show ¬ (((icmpp 0).val : Int) = 4 ∨ ((icmpp 0).val : Int) = 3 ∨
        ((icmpp 0).val : Int) = 2 ∨ ((icmpp 0).val : Int) = 1)
      omega
    have h3 : (icmp_type icmpp = ND_REDIRECT ∨ icmp_type icmpp = ND_ROUTER_SOLICIT ∨
        icmp_type icmpp = ICMP6_ROUTER_RENUMBERING ∨ icmp_type icmpp = ND_ROUTER_ADVERT) := by
      show (((icmpp 0).val : Int) = 137 ∨ ((icmpp 0).val : Int) = 133 ∨
        ((icmpp 0).val : Int) = 138 ∨ ((icmpp 0).val : Int) = 134)
      omega
    simp only [NextICMP6, Id.bind_eq, h1, h2, h3, if_true, if_false]
  · intro h
    simp only [ht] at h
    have h1 : ¬ (icmp_type icmpp = ICMP6_ECHO_REQUEST ∨ icmp_type icmpp = ICMP6_ECHO_REPLY) := by
      show ¬ (((icmpp 0).val : Int) = 128 ∨ ((icmpp 0).val : Int) = 129)
      omega
    have h2 : ¬ (icmp_type icmpp = ICMP6_PARAM_PROB ∨ icmp_type icmpp = ICMP6_TIME_EXCEEDED ∨
        icmp_type icmpp = ICMP6_PACKET_TOO_BIG ∨ icmp_type icmpp = ICMP6_DST_UNREACH) := by
      show ¬ (((icmpp 0).val : Int) = 4 ∨ ((icmpp 0).val : Int) = 3 ∨
        ((icmpp 0).val : Int) = 2 ∨ ((icmpp 0).val : Int) = 1)
      omega
    have h3 : ¬ (icmp_type icmpp = ND_REDIRECT ∨ icmp_type icmpp = ND_ROUTER_SOLICIT ∨
        icmp_type icmpp = ICMP6_ROUTER_RENUMBERING ∨ icmp_type icmpp = ND_ROUTER_ADVERT) := by
      show ¬ (((icmpp 0).val : Int) = 137 ∨ ((icmpp 0).val : Int) = 133 ∨
        ((icmpp 0).val : Int) = 138 ∨ ((icmpp 0).val : Int) = 134)
      omega
    simp only [NextICMP6, Id.bind_eq, h1, h2, h3, if_false]
  · intro h hs
    have h1 : icmp_type icmpp = ND_ROUTER_ADVERT := h
    simp [Router, Id.bind_eq, h1, Globals.handler, hs]
  · intro h
    have h1 : ¬ (icmp_type icmpp = ND_ROUTER_ADVERT) := h
    simp only [Router, Id.bind_eq, h1, if_false]
  · intro hs
    simp [ICMPEvent, Globals.handler, hs]
  · intro hn
    simp [BuildICMPVal, hn]

/-- Witness of C12: a neighbor solicitation (type 135) on a new analyzer is none of the
listed types and yields one `icmp_sent` event whose summary has is-v6 flag 1. -/
theorem NextICMP6_routes_witness :
    (Id.run (NextICMP6 (sampleGlobals Id) (ICMP_Analyzer.new ⟨1, 2⟩ 0 0)
        (Ptr.ofMemory sampleNeighborSolicit) 4 4 ((Ptr.ofMemory sampleNeighborSolicit).add 8)
        sampleOuter6)).2
      = [Action.ConnectionEvent Event.icmp_sent
          [Val.conn_val, Val.icmp_conn_val ⟨1, 2, 135, 0, 4, 1⟩]] := by
  rw [(NextICMP6_routes (sampleGlobals Id) (ICMP_Analyzer.new ⟨1, 2⟩ 0 0)
      (Ptr.ofMemory sampleNeighborSolicit) ((Ptr.ofMemory sampleNeighborSolicit).add 8) 4 4
      sampleOuter6).2.2.2.2.1 (by decide)]
  exact (NextICMP6_routes (sampleGlobals Id) (ICMP_Analyzer.new ⟨1, 2⟩ 0 0)
      (Ptr.ofMemory sampleNeighborSolicit) ((Ptr.ofMemory sampleNeighborSolicit).add 8) 4 4
      sampleOuter6).2.2.2.2.2.2.2.1 rfl

theorem readBytes_ofBuffer (buf : List u_char) (k n off : Nat) (h : k + off + n ≤ buf.length) :
    readBytes ((Ptr.ofBuffer buf).add k) off n = some ((buf.drop (k + off)).take n) := by
  induction n generalizing off with
  | zero => simp [readBytes]
  | succ n ih =>
    have h1 : k + off < buf.length := by omega
    have h2 := ih (off + 1) (by omega)
    simp only [readBytes, Ptr.add] at h2 ⊢
    simp only [h2, Ptr.ofBuffer, List.getElem?_eq_getElem h1]
    rw [List.drop_eq_getElem_cons h1, List.take_succ_cons]
    rfl

theorem load16_ofBuffer_base (le : Bool) (buf : List u_char) (off : Nat)
    (h : off + 1 < buf.length) :
    load16 le (Ptr.ofBuffer buf) off =
      some ((if le then ((buf.getD off 0).val + 256 * (buf.getD (off + 1) 0).val : Nat)
        else (256 * (buf.getD off 0).val + (buf.getD (off + 1) 0).val : Nat)) : Int) := by
  simp only [load16, Ptr.ofBuffer_lt buf off (by omega), Ptr.ofBuffer_lt buf (off + 1) h]
  rfl

theorem BuildICMPVal_ofBuffer (self : ICMP_Analyzer) (buf : List u_char) (len icmpv6 : Int)
    (h : 2 ≤ buf.length) :
    ∃ self2 v, BuildICMPVal self (Ptr.ofBuffer buf) len icmpv6 = some (self2, v) := by
  unfold BuildICMPVal
  cases self.icmp_conn_val with
  | some v => exact ⟨_, _, rfl⟩
  | none =>
    simp only [Ptr.ofBuffer_lt buf 0 (by omega), Ptr.ofBuffer_lt buf 1 (by omega)]
    exact ⟨_, _, rfl⟩

/-- C13: for every echo message whose 8-byte header is captured (`buf` holds the captured
bytes) and whose event kind is subscribed, `Echo`, called as `DeliverPacket` calls it (data
and captured length moved past the 8-byte header), reads inside the captured bytes only
and delivers `icmp_echo_request` when the type is 128 under ICMPv6 (outer next protocol
58) or 8 otherwise, and `icmp_echo_reply` for any other type.  The identifier and the
sequence number are the big-endian 16-bit values at bytes 4-5 and 6-7, and the payload is
exactly the captured bytes after the header, `buf.drop 8`, of length `caplen - 8`. -/
theorem Echo_emits (g : Globals Option) (self : ICMP_Analyzer) (buf : List u_char)
    (len : Int) (ip_hdr : IP_Hdr Option) (p : Nat) (kind : Event)
    (hcap : 8 ≤ buf.length) (hmax : buf.length < 2147483648)
    (hp : ip_hdr.NextProto = some p)
    (hkind : kind = if (p = 58 ∧ (buf.getD 0 0).val = 128) ∨ (p ≠ 58 ∧ (buf.getD 0 0).val = 8)
      then Event.icmp_echo_request else Event.icmp_echo_reply)
    (hsub : g.subscribed kind = true) :
    ∃ self2 v,
      BuildICMPVal self (Ptr.ofBuffer buf) len (if p ≠ 1 then 1 else 0) = some (self2, v) ∧
      Echo g self (Ptr.ofBuffer buf) len ((buf.length : Int) - 8) ((Ptr.ofBuffer buf).add 8)
          ip_hdr
        = some (self2, [Action.ConnectionEvent kind
            [Val.conn_val, Val.icmp_conn_val v,
             Val.count (256 * (buf.getD 4 0).val + (buf.getD 5 0).val : Nat),
             Val.count (256 * (buf.getD 6 0).val + (buf.getD 7 0).val : Nat),
             Val.string (buf.drop 8)]]) ∧
      (buf.drop 8).length + 8 = buf.length := by
  obtain ⟨self2, v, hb⟩ := BuildICMPVal_ofBuffer self buf len (if p ≠ 1 then 1 else 0)
    (by omega)
  refine ⟨self2, v, hb, ?_, ?_⟩
  · have ht : icmp_type (Ptr.ofBuffer buf) = some ((buf.getD 0 0).val : Int) := by
      simp only [icmp_type, Ptr.ofBuffer_lt buf 0 (by omega)]
      rfl
    have l4 := load16_ofBuffer_base g.little_endian buf 4 (by omega)
    have l6 := load16_ofBuffer_base g.little_endian buf 6 (by omega)
    have hn : (((buf.length : Int) - 8) % 18446744073709551616).toNat = buf.length - 8 := by
      omega
    have hpay : BroString ((Ptr.ofBuffer buf).add 8) ((buf.length : Int) - 8)
        = some (buf.drop 8) := by
      simp only [BroString, hn]
      rw [readBytes_ofBuffer buf 8 (buf.length - 8) 0 (by omega)]
      simp
    have hf : (if p = IPPROTO_ICMPV6 then
          (if ((buf.getD 0 0).val : Int) = ICMP6_ECHO_REQUEST then g.handler .icmp_echo_request
           else g.handler .icmp_echo_reply)
        else
          (if ((buf.getD 0 0).val : Int) = ICMP_ECHO then g.handler .icmp_echo_request
           else g.handler .icmp_echo_reply)) = some kind := by
      have h8 : (((buf.getD 0 0).val : Int) = ICMP_ECHO) = ((buf.getD 0 0).val = 8) := by
        show (((buf.getD 0 0).val : Int) = 8) = _
        simp only [eq_iff_iff]
        omega
      have h128 : (((buf.getD 0 0).val : Int) = ICMP6_ECHO_REQUEST)
          = ((buf.getD 0 0).val = 128) := by
        show (((buf.getD 0 0).val : Int) = 128) = _
        simp only [eq_iff_iff]
        omega
      simp only [h8, h128]
      rw [hkind] at hsub ⊢
      by_cases h1 : p = 58 <;> by_cases h2 : (buf.getD 0 0).val = 128 <;>
        by_cases h3 : (buf.getD 0 0).val = 8 <;>
        simp_all [Globals.handler]
    simp only [Echo, hp, ht, Option.bind_eq_bind, Option.some_bind, hf, l4, l6, hpay, hb,
      ntohs_load16]
    rfl
  · simp
    omega

/-- Witness of C13: the 12-byte echo request (identifier 0x1234, sequence 1, payload
"ping") over a bounds-checked buffer. -/
theorem Echo_emits_witness :
    Echo (sampleGlobals Option) (ICMP_Analyzer.new ⟨1, 2⟩ 0 0) (Ptr.ofBuffer sampleEcho) 4 4
        ((Ptr.ofBuffer sampleEcho).add 8) sampleOuter4Checked
      = some ({ ICMP_Analyzer.new ⟨1, 2⟩ 0 0 with icmp_conn_val := some ⟨1, 2, 8, 0, 4, 0⟩ },
          [Action.ConnectionEvent Event.icmp_echo_request
            [Val.conn_val, Val.icmp_conn_val ⟨1, 2, 8, 0, 4, 0⟩, Val.count 0x1234,
             Val.count 1, Val.string [112, 105, 110, 103]]]) := by
  obtain ⟨self2, v, hb, he, _⟩ := Echo_emits (sampleGlobals Option)
    (ICMP_Analyzer.new ⟨1, 2⟩ 0 0) sampleEcho 4 sampleOuter4Checked 1 Event.icmp_echo_request
    (by decide) (by decide) rfl (by decide) rfl
  have hb2 : some (self2, v)
      = some (({ ICMP_Analyzer.new ⟨1, 2⟩ 0 0 with icmp_conn_val := some ⟨1, 2, 8, 0, 4, 0⟩ } :
          ICMP_Analyzer), (⟨1, 2, 8, 0, 4, 0⟩ : icmp_conn)) :=
    hb.symm.trans (by decide)
  cases hb2
  exact he

theorem GetContextProtocol_58 (g : Globals Id) (ip_hdr : IP_Hdr Id)
    (h : Id.run ip_hdr.NextProto = 58) :
    Id.run (GetContextProtocol g ip_hdr) = (TransportProto.TRANSPORT_UNKNOWN, 0, 0) := by
  simp only [Id.run] at h
  simp only [GetContextProtocol, Id.run, Id.bind_eq, h]
  cases g.little_endian <;> rfl

/-- C14, evaluated on the code: in the first `switch` of `GetContextProtocol`, `case 58`
assigns `TRANSPORT_ICMP` and, having no `break`, falls through to `default`, which
assigns `TRANSPORT_UNKNOWN`.  For an embedded IPv6 packet with next header 58 carrying an
echo request (type 128) the result is (unknown, 0, 0), not (ICMP, 128, 129) as
`ICMP6_counterpart 128 0` would give; protocol 1 in an embedded IPv4 packet does give the
ICMP tag with the type and its counterpart (here 13 and 14, on a big-endian host). -/
theorem GetContextProtocol_58_not_ICMP :
    GetContextProtocol (sampleGlobalsBE Option) (IP_Hdr.ofIp6 (Ptr.ofBuffer sampleIcmp6Context))
      = some (TransportProto.TRANSPORT_UNKNOWN, 0, 0) ∧
    ICMP6_counterpart 128 0 = (129, false) ∧
    GetContextProtocol (sampleGlobalsBE Option) (IP_Hdr.ofIp4 (Ptr.ofBuffer sampleIcmpContext))
      = some (TransportProto.TRANSPORT_ICMP, 13, 14) := by
  decide

/-- C15, evaluated on the code: `GetContextProtocol` passes the type byte and the
counterpart through `ntohs`.  For an embedded IPv4 datagram with protocol 1 carrying a
timestamp request (type 13, counterpart 14) a little-endian host gets source port 3328
(13 * 256) and destination port 3584 (14 * 256); only a big-endian host gets 13 and 14. -/
theorem ExtractICMP4Context_icmp_ports_swapped :
    (ExtractICMP4Context (sampleGlobals Option) 28
        (IP_Hdr.ofIp4 (Ptr.ofBuffer sampleIcmpContext))).map
      (fun r => (r.id.orig_p, r.id.resp_p))
      = some (⟨3328, TransportProto.TRANSPORT_ICMP⟩, ⟨3584, TransportProto.TRANSPORT_ICMP⟩) ∧
    (ExtractICMP4Context (sampleGlobalsBE Option) 28
        (IP_Hdr.ofIp4 (Ptr.ofBuffer sampleIcmpContext))).map
      (fun r => (r.id.orig_p, r.id.resp_p))
      = some (⟨13, TransportProto.TRANSPORT_ICMP⟩, ⟨14, TransportProto.TRANSPORT_ICMP⟩) ∧
    (sampleGlobals Option).little_endian = true ∧
    (sampleGlobalsBE Option).little_endian = false ∧
    ICMP4_counterpart 13 0 = (14, false) := by
  decide

/-- C16: for every input to `ExtractICMP4Context` (with `0 <= len`, a C `int`) whose
embedded IPv4 header length is smaller than 20 or larger than `len`, the record has
bad-header-length true and every derived field zeroed: both addresses 0, both ports 0
with tag unknown, total length 0, fragment offset 0, transport tag unknown (0), and
bad-checksum, more-fragments and DF all false. -/
theorem ExtractICMP4Context_bad_hdr_len (g : Globals Id) (len : Int) (ip_hdr : IP_Hdr Id)
    (hlen : 0 ≤ len) (hmax : len < 2147483648)
    (h : Id.run ip_hdr.HdrLen < 20 ∨ ((Id.run ip_hdr.HdrLen : Nat) : Int) > len) :
    Id.run (ExtractICMP4Context g len ip_hdr) =
      { id := { orig_h := 0, orig_p := ⟨0, TransportProto.TRANSPORT_UNKNOWN⟩,
                resp_h := 0, resp_p := ⟨0, TransportProto.TRANSPORT_UNKNOWN⟩ },
        len := 0, proto := 0, bad_hdr_len := 1, bad_checksum := 0, frag_offset := 0,
        MF := 0, DF := 0 } := by
  have hu : uint32 len = len.toNat := by
    simp only [uint32]
    omega
  have hc : (Id.run ip_hdr.HdrLen < 20 ∨ Id.run ip_hdr.HdrLen > uint32 len) := by
    rw [hu]
    omega
  simp only [Id.run] at hc
  simp only [ExtractICMP4Context, Id.run, Id.bind_eq, Id.pure_eq]
  rw [if_pos hc]
  rfl

/-- Witness of C16: the 22 captured bytes of the cut sample, offered with `len = 10`: the
header length 20 exceeds the 10 bytes available. -/
theorem ExtractICMP4Context_bad_hdr_len_witness :
    Id.run (ExtractICMP4Context (sampleGlobals Id) 10
        (IP_Hdr.ofIp4 (Ptr.ofMemory sampleCutContext))) =
      { id := { orig_h := 0, orig_p := ⟨0, TransportProto.TRANSPORT_UNKNOWN⟩,
                resp_h := 0, resp_p := ⟨0, TransportProto.TRANSPORT_UNKNOWN⟩ },
        len := 0, proto := 0, bad_hdr_len := 1, bad_checksum := 0, frag_offset := 0,
        MF := 0, DF := 0 } :=
  ExtractICMP4Context_bad_hdr_len (sampleGlobals Id) 10
    (IP_Hdr.ofIp4 (Ptr.ofMemory sampleCutContext)) (by decide) (by decide)
    (Or.inr (by decide))

/-- C17: for every input to `ExtractICMP4Context` whose embedded IPv4 header of length `h`
is complete (`20 <= h <= len`) but followed by fewer than 4 bytes (`len < h + 4`), the
record has both ports 0, transport tag unknown and bad-header-length true, while total
length, source and destination address, DF, more-fragments (bit 0x2000 of the fragment
field) and the 13-bit fragment offset (fragment field and 0x1fff) are those of the
embedded header. -/
theorem ExtractICMP4Context_no_ports (g : Globals Id) (len : Int) (ip_hdr : IP_Hdr Id)
    (hmax : len < 2147483648)
    (h1 : 20 ≤ Id.run ip_hdr.HdrLen) (h2 : ((Id.run ip_hdr.HdrLen : Nat) : Int) ≤ len)
    (h3 : len < ((Id.run ip_hdr.HdrLen : Nat) : Int) + 4) :
    (Id.run (ExtractICMP4Context g len ip_hdr)).id.orig_p
      = ⟨0, TransportProto.TRANSPORT_UNKNOWN⟩ ∧
    (Id.run (ExtractICMP4Context g len ip_hdr)).id.resp_p
      = ⟨0, TransportProto.TRANSPORT_UNKNOWN⟩ ∧
    (Id.run (ExtractICMP4Context g len ip_hdr)).proto = 0 ∧
    (Id.run (ExtractICMP4Context g len ip_hdr)).bad_hdr_len = 1 ∧
    (Id.run (ExtractICMP4Context g len ip_hdr)).len = Id.run ip_hdr.TotalLen ∧
    (Id.run (ExtractICMP4Context g len ip_hdr)).id.orig_h = Id.run ip_hdr.SrcAddr ∧
    (Id.run (ExtractICMP4Context g len ip_hdr)).id.resp_h = Id.run ip_hdr.DstAddr ∧
    (Id.run (ExtractICMP4Context g len ip_hdr)).DF = Id.run ip_hdr.DF ∧
    (Id.run (ExtractICMP4Context g len ip_hdr)).MF
      = ((Id.run ip_hdr.FragField &&& 0x2000 : Nat) : Int) ∧
    (Id.run (ExtractICMP4Context g len ip_hdr)).frag_offset
      = Id.run ip_hdr.FragField &&& 0x1fff := by
  have hu : uint32 len = len.toNat := by
    simp only [uint32]
    omega
  have hc1 : ¬ (Id.run ip_hdr.HdrLen < 20 ∨ Id.run ip_hdr.HdrLen > uint32 len) := by
    rw [hu]
    omega
  have hc2 : ¬ (uint32 len ≥ (Id.run ip_hdr.HdrLen + 4) % 4294967296) := by
    rw [hu]
    omega
  simp only [Id.run] at hc1 hc2
  simp only [ExtractICMP4Context, Id.run, Id.bind_eq, Id.pure_eq]
  rw [if_neg hc1, if_neg hc2]
  exact ⟨rfl, rfl, rfl, rfl, rfl, rfl, rfl, rfl, rfl, rfl⟩

/-- Witness of C17: the cut sample (header of 20 bytes, 22 bytes captured, fragment field
0x2005): ports 0 and bad-header-length, more-fragments bit and fragment offset 5 kept. -/
theorem ExtractICMP4Context_no_ports_witness :
    (Id.run (ExtractICMP4Context (sampleGlobals Id) 22
        (IP_Hdr.ofIp4 (Ptr.ofMemory sampleCutContext)))).bad_hdr_len = 1 ∧
    (Id.run (ExtractICMP4Context (sampleGlobals Id) 22
        (IP_Hdr.ofIp4 (Ptr.ofMemory sampleCutContext)))).MF = 0x2000 ∧
    (Id.run (ExtractICMP4Context (sampleGlobals Id) 22
        (IP_Hdr.ofIp4 (Ptr.ofMemory sampleCutContext)))).frag_offset = 5 :=
  have h := ExtractICMP4Context_no_ports (sampleGlobals Id) 22
    (IP_Hdr.ofIp4 (Ptr.ofMemory sampleCutContext)) (by decide) (by decide) (by decide)
    (by decide)
  ⟨h.2.2.2.1, h.2.2.2.2.2.2.2.2.1, h.2.2.2.2.2.2.2.2.2⟩

/-- C18: in `ExtractICMP6Context` the condition `ip_hdr->NextProto() == 58 || 17` is true
for every input, so the transport-tag field of the record is 58 for every embedded IPv6
packet, whatever its next header and whatever its header length, and it is never the
generically classified tag (which is 0, 1, 2 or 3). -/
theorem ExtractICMP6Context_tag_always_58 (g : Globals Id) (len : Int) (ip_hdr : IP_Hdr Id) :
    (Id.run ip_hdr.NextProto = 58 ∨ (17 : Nat) ≠ 0) ∧
    (Id.run (ExtractICMP6Context g len ip_hdr)).proto = 58 ∧
    (Id.run (ExtractICMP6Context g len ip_hdr)).proto
      ≠ (Id.run (ExtractICMP6Context g len ip_hdr)).id.orig_p.proto.toNat := by
  have hp : (Id.run (ExtractICMP6Context g len ip_hdr)).proto = 58 := by
    have htrue : (Id.run ip_hdr.NextProto = 58 ∨ (17 : Nat) ≠ 0) := Or.inr (by decide)
    simp only [Id.run] at htrue
    simp only [ExtractICMP6Context, Id.run, Id.bind_eq, Id.pure_eq]
    rw [if_pos htrue]
    split_ifs <;> rfl
  refine ⟨Or.inr (by decide), hp, ?_⟩
  rw [hp]
  cases (Id.run (ExtractICMP6Context g len ip_hdr)).id.orig_p.proto <;> decide

theorem readBytes_none (p : Ptr Option) (n off i : Nat) (h1 : off ≤ i) (h2 : i < off + n)
    (hnone : p i = none) : readBytes p off n = none := by
  induction n generalizing off with
  | zero => omega
  | succ n ih =>
    simp only [readBytes]
    cases hp : p off with
    | none => rfl
    | some b =>
      have hne : off ≠ i := by
        intro he
        rw [he, hnone] at hp
        cases hp
      rw [ih (off + 1) (by omega) (by omega)]
      rfl

theorem readBE_none (buf : List u_char) (off n : Nat) (hpos : 0 < n)
    (h : buf.length < off + n) : readBE (Ptr.ofBuffer buf) off n = none := by
  have hn : Ptr.ofBuffer buf (off + n - 1) = none := by
    simp only [Ptr.ofBuffer]
    exact List.getElem?_eq_none (by omega)
  have hr := readBytes_none (Ptr.ofBuffer buf) n off (off + n - 1) (by omega) (by omega) hn
  simp only [readBE, hr]
  rfl

theorem ExtractICMP6Context_short (g : Globals Option) (buf : List u_char)
    (h : buf.length < 40) :
    ExtractICMP6Context g (buf.length : Int) (IP_Hdr.ofIp6 (Ptr.ofBuffer buf)) = none := by
  have hd : (IP_Hdr.ofIp6 (Ptr.ofBuffer buf)).DstAddr = none := readBE_none buf 24 16 (by omega) (by omega)
  have hl : (IP_Hdr.ofIp6 (Ptr.ofBuffer buf)).HdrLen = some 40 := rfl
  simp only [ExtractICMP6Context, hl, hd, Option.bind_eq_bind, Option.some_bind]
  cases (IP_Hdr.ofIp6 (Ptr.ofBuffer buf)).TotalLen with
  | none => rfl
  | some tl =>
    cases (IP_Hdr.ofIp6 (Ptr.ofBuffer buf)).SrcAddr with
    | none => rfl
    | some sa => rfl

/-- C19, evaluated on the code: `ExtractICMP6Context` does not compare the header length
with `len` (the IPv4 extractor does): with the fixed 40-byte header length it reads the
embedded total length, source address and destination address whatever `len` is.  For a
payload of 8 captured bytes the total-length read (bytes 4-5) is inside the buffer, the
source-address read (bytes 8-23) is outside it, and the extraction as a whole reads past
the captured bytes. -/
theorem ExtractICMP6Context_reads_past_capture (g : Globals Option) :
    (sampleIcmp6Context.take 8).length = 8 ∧
    (IP_Hdr.ofIp6 (Ptr.ofBuffer (sampleIcmp6Context.take 8))).HdrLen = some 40 ∧
    (IP_Hdr.ofIp6 (Ptr.ofBuffer (sampleIcmp6Context.take 8))).TotalLen = some 48 ∧
    (IP_Hdr.ofIp6 (Ptr.ofBuffer (sampleIcmp6Context.take 8))).SrcAddr = none ∧
    ExtractICMP6Context g 8 (IP_Hdr.ofIp6 (Ptr.ofBuffer (sampleIcmp6Context.take 8)))
      = none :=
  ⟨by decide, by decide, by decide, by decide,
   ExtractICMP6Context_short g (sampleIcmp6Context.take 8) (by decide)⟩

/-- C20, evaluated on the code: `ExtractICMP4Context` reads the header-length byte (offset
0) before any comparison with `len`: with `len = 0` and no captured byte that read is
outside the buffer. -/
theorem ExtractICMP4Context_empty_reads_past_capture (g : Globals Option) :
    (IP_Hdr.ofIp4 (Ptr.ofBuffer [])).HdrLen = none ∧
    ExtractICMP4Context g 0 (IP_Hdr.ofIp4 (Ptr.ofBuffer [])) = none :=
  ⟨rfl, rfl⟩

theorem GetContextProtocol_ofIp4_isSome (g : Globals Option) (buf : List u_char) (h : Nat)
    (hmin : 20 ≤ h) (hlen : h + 4 ≤ buf.length)
    (hhl : ((buf.getD 0 0).val % 16) * 4 = h) :
    ∃ r, GetContextProtocol g (IP_Hdr.ofIp4 (Ptr.ofBuffer buf)) = some r := by
  have h1 := ofIp4_HdrLen buf (by omega)
  have h2 := ofIp4_NextProto buf (by omega)
  rw [hhl] at h1
  have h3 : (IP_Hdr.ofIp4 (Ptr.ofBuffer buf)).hdr = Ptr.ofBuffer buf := rfl
  have h4 : (IP_Hdr.ofIp4 (Ptr.ofBuffer buf)).ip4 = true := rfl
  have l0 := load16_ofBuffer g.little_endian buf h 0 (by omega)
  have l2 := load16_ofBuffer g.little_endian buf h 2 (by omega)
  have ht : icmp_type ((Ptr.ofBuffer buf).add h) = some ((buf.getD h 0).val : Int) := by
    simp only [icmp_type, Ptr.add, Ptr.ofBuffer_lt buf (h + 0) (by omega)]
    rfl
  have hc : icmp_code ((Ptr.ofBuffer buf).add h) = some ((buf.getD (h + 1) 0).val : Int) := by
    simp only [icmp_code, Ptr.add, Ptr.ofBuffer_lt buf (h + 1) (by omega)]
    rfl
  simp only [GetContextProtocol, h1, h2, h3, h4, Option.bind_eq_bind, Option.some_bind]
  split
  · simp only [ht, hc, Option.bind_eq_bind, Option.some_bind, if_true]
    exact ⟨_, rfl⟩
  · simp only [l0, l2, Option.bind_eq_bind, Option.some_bind]
    exact ⟨_, rfl⟩
  · simp only [l0, l2, Option.bind_eq_bind, Option.some_bind]
    exact ⟨_, rfl⟩
  · exact ⟨_, rfl⟩

theorem ExtractICMP4Context_nonempty_in_bounds (g : Globals Option) (buf : List u_char)
    (hpos : 0 < buf.length) (hmax : buf.length < 2147483648) :
    ∃ r, ExtractICMP4Context g (buf.length : Int) (IP_Hdr.ofIp4 (Ptr.ofBuffer buf))
      = some r := by
  have h1 := ofIp4_HdrLen buf hpos
  have hu : uint32 (buf.length : Int) = buf.length := by
    simp only [uint32]
    omega
  by_cases hc : ((buf.getD 0 0).val % 16) * 4 < 20 ∨
      ((buf.getD 0 0).val % 16) * 4 > uint32 (buf.length : Int)
  · simp only [ExtractICMP4Context, h1, Option.bind_eq_bind, Option.some_bind, hc, if_true]
    exact ⟨_, rfl⟩
  · have hcu := hc
    rw [hu] at hcu
    have hb := (buf.getD 0 0).isLt
    have h3 : (IP_Hdr.ofIp4 (Ptr.ofBuffer buf)).hdr = Ptr.ofBuffer buf := rfl
    obtain ⟨tl, htl⟩ : ∃ v, (IP_Hdr.ofIp4 (Ptr.ofBuffer buf)).TotalLen = some v :=
      readBE_isSome buf 2 2 (by omega)
    obtain ⟨sa, hsa⟩ : ∃ v, (IP_Hdr.ofIp4 (Ptr.ofBuffer buf)).SrcAddr = some v :=
      readBE_isSome buf 12 4 (by omega)
    obtain ⟨da, hda⟩ : ∃ v, (IP_Hdr.ofIp4 (Ptr.ofBuffer buf)).DstAddr = some v :=
      readBE_isSome buf 16 4 (by omega)
    obtain ⟨ff, hff⟩ : ∃ v, (IP_Hdr.ofIp4 (Ptr.ofBuffer buf)).FragField = some v :=
      readBE_isSome buf 6 2 (by omega)
    have hdf : (IP_Hdr.ofIp4 (Ptr.ofBuffer buf)).DF
        = some (if ff &&& 0x4000 ≠ 0 then 1 else 0) := by
      have : readBE (Ptr.ofBuffer buf) 6 2 = some ff := hff
      simp only [IP_Hdr.ofIp4, this]
      rfl
    obtain ⟨ck, hck⟩ := ones_complement_checksum_isSome buf
      (((buf.getD 0 0).val % 16) * 4) 0 (by omega)
    by_cases hc2 : uint32 (buf.length : Int) ≥ (((buf.getD 0 0).val % 16) * 4 + 4) % 4294967296
    · have hc2u := hc2
      rw [hu] at hc2u
      obtain ⟨gp, hgp⟩ := GetContextProtocol_ofIp4_isSome g buf (((buf.getD 0 0).val % 16) * 4)
        (by omega) (by omega) rfl
      simp only [ExtractICMP4Context, h1, h3, htl, hsa, hda, hff, hdf, hck, hgp, hc, hc2,
        Option.bind_eq_bind, Option.some_bind, if_true, if_false]
      exact ⟨_, rfl⟩
    · simp only [ExtractICMP4Context, h1, h3, htl, hsa, hda, hff, hdf, hck, hc, hc2,
        Option.bind_eq_bind, Option.some_bind, if_false]
      exact ⟨_, rfl⟩

theorem GetContextProtocol_ofIp6_isSome (g : Globals Option) (buf : List u_char)
    (hlen : 44 ≤ buf.length) :
    ∃ r, GetContextProtocol g (IP_Hdr.ofIp6 (Ptr.ofBuffer buf)) = some r := by
  have h1 : (IP_Hdr.ofIp6 (Ptr.ofBuffer buf)).HdrLen = some 40 := rfl
  have h2 : (IP_Hdr.ofIp6 (Ptr.ofBuffer buf)).NextProto = some (buf.getD 6 0).val := by
    simp only [IP_Hdr.ofIp6, Ptr.ofBuffer_lt buf 6 (by omega)]
    rfl
  have h3 : (IP_Hdr.ofIp6 (Ptr.ofBuffer buf)).hdr = Ptr.ofBuffer buf := rfl
  have h4 : (IP_Hdr.ofIp6 (Ptr.ofBuffer buf)).ip4 = false := rfl
  have l0 := load16_ofBuffer g.little_endian buf 40 0 (by omega)
  have l2 := load16_ofBuffer g.little_endian buf 40 2 (by omega)
  have ht : icmp_type ((Ptr.ofBuffer buf).add 40) = some ((buf.getD 40 0).val : Int) := by
    simp only [icmp_type, Ptr.add, Ptr.ofBuffer_lt buf (40 + 0) (by omega)]
    rfl
  have hc : icmp_code ((Ptr.ofBuffer buf).add 40) = some ((buf.getD 41 0).val : Int) := by
    simp only [icmp_code, Ptr.add, Ptr.ofBuffer_lt buf (40 + 1) (by omega)]
    rfl
  simp only [GetContextProtocol, h1, h2, h3, h4, Option.bind_eq_bind, Option.some_bind]
  split
  · simp only [ht, hc, Option.bind_eq_bind, Option.some_bind]
    exact ⟨_, rfl⟩
  · simp only [l0, l2, Option.bind_eq_bind, Option.some_bind]
    exact ⟨_, rfl⟩
  · simp only [l0, l2, Option.bind_eq_bind, Option.some_bind]
    exact ⟨_, rfl⟩
  · exact ⟨_, rfl⟩

theorem ExtractICMP6Context_full_header_in_bounds (g : Globals Option) (buf : List u_char)
    (hlen : 40 ≤ buf.length) (hmax : buf.length < 2147483648) :
    ∃ r, ExtractICMP6Context g (buf.length : Int) (IP_Hdr.ofIp6 (Ptr.ofBuffer buf))
      = some r := by
  have h1 : (IP_Hdr.ofIp6 (Ptr.ofBuffer buf)).HdrLen = some 40 := rfl
  have h2 : (IP_Hdr.ofIp6 (Ptr.ofBuffer buf)).NextProto = some (buf.getD 6 0).val := by
    simp only [IP_Hdr.ofIp6, Ptr.ofBuffer_lt buf 6 (by omega)]
    rfl
  have hu : uint32 (buf.length : Int) = buf.length := by
    simp only [uint32]
    omega
  obtain ⟨pl, hpl⟩ := readBE_isSome buf 4 2 (by omega)
  have htl : (IP_Hdr.ofIp6 (Ptr.ofBuffer buf)).TotalLen = some ((pl + 40) % 65536) := by
    simp only [IP_Hdr.ofIp6, hpl]
    rfl
  obtain ⟨sa, hsa⟩ : ∃ v, (IP_Hdr.ofIp6 (Ptr.ofBuffer buf)).SrcAddr = some v :=
    readBE_isSome buf 8 16 (by omega)
  obtain ⟨da, hda⟩ : ∃ v, (IP_Hdr.ofIp6 (Ptr.ofBuffer buf)).DstAddr = some v :=
    readBE_isSome buf 24 16 (by omega)
  have hc : ¬ ((40 : Nat) < 40 ∨ (40 : Nat) ≠ 40) := by decide
  by_cases hc2 : uint32 (buf.length : Int) ≥ (40 + 4) % 4294967296
  · have hc2u := hc2
    rw [hu] at hc2u
    obtain ⟨gp, hgp⟩ := GetContextProtocol_ofIp6_isSome g buf (by omega)
    simp only [ExtractICMP6Context, h1, h2, htl, hsa, hda, hgp, hc, hc2,
      Option.bind_eq_bind, Option.some_bind, if_true, if_false]
    exact ⟨_, rfl⟩
  · simp only [ExtractICMP6Context, h1, h2, htl, hsa, hda, hc, hc2,
      Option.bind_eq_bind, Option.some_bind, if_false]
    exact ⟨_, rfl⟩

end ICMP
